import Mathlib

/-
Verification development for the "starry sky" screensaver sources.

The repository contains three variants of the program:
  * a GDI/WinAPI variant (modelled in namespace `GDI`) whose draw routine
    paints onto a persistent device context and therefore erases almost-faded
    stars explicitly;
  * an SDL3 fade-only variant (namespace `SDLFade`) with integer star
    coordinates and a seed-threaded LCG random generator;
  * an SDL3 drifting variant (namespace `SDLDrift`) whose stars move
    horizontally; its float coordinates are modelled by rational numbers,
    which is exact on every assignment the theorems below talk about
    (integer-valued respawn positions and integer brightness).

C `int` values are modelled by `Int`; the 32-bit unsigned seed of the LCG is a
`Nat` reduced modulo 2^32 at every step.  The libc `rand()` of the GDI variant
is modelled by an arbitrary stream `rand : Nat → Nat` together with a call
counter, since its concrete values are irrelevant to every claim.  File I/O is
modelled by lists of lines (lists of characters): `CFG_SaveLines` produces the
exact lines `CFG_Save` prints, and `CFG_LoadLines` folds the line parser of
`CFG_Load` over them.
-/

/-- BETWEEN macro: `(((x) < (l)) ? (l) : ((x) > (u)) ? (u) : (x))`. -/
def BETWEEN (l u x : Int) : Int :=
  if x < l then l else if x > u then u else x

/-- MAXSTARS capacity of the star pool. -/
def MAXSTARS : Nat := 500

/-- M_RealRandom: `return (m_rand_seed = m_rand_seed * 214013u + 2531011u) >> 17;`
with a 32-bit unsigned seed.  Returns (value, new seed). -/
def M_RealRandom (seed : Nat) : Nat × Nat :=
  let s := (seed * 214013 + 2531011) % 4294967296
  (s >>> 17, s)

/-- R_RandomizeStarColor of the SDL variants: three random channels when
`COLORED_STARS` is truthy, otherwise one random gray value replicated. -/
def R_RandomizeStarColor (colored : Int) (seed : Nat) : (Int × Int × Int) × Nat :=
  if colored ≠ 0 then
    let r1 := M_RealRandom seed
    let r2 := M_RealRandom r1.2
    let r3 := M_RealRandom r2.2
    (((r1.1 : Int) % 256, (r2.1 : Int) % 256, (r3.1 : Int) % 256), r3.2)
  else
    let r1 := M_RealRandom seed
    (((r1.1 : Int) % 256, (r1.1 : Int) % 256, (r1.1 : Int) % 256), r1.2)

/-- Whitespace test used by `trim` (space, tab, CR, LF as in the C source). -/
def isSpaceChar (c : Char) : Bool :=
  c == ' ' || c == '\t' || c == '\r' || c == '\n'

/-- Trim of the SDL variants: drop leading whitespace, then drop trailing
whitespace. -/
def trim (l : List Char) : List Char :=
  ((l.dropWhile isSpaceChar).reverse.dropWhile isSpaceChar).reverse

/-- ASCII lower-casing used by `ieq`. -/
def lowerChar (c : Char) : Char :=
  if 'A' ≤ c ∧ c ≤ 'Z' then Char.ofNat (c.toNat + 32) else c

/-- Case-insensitive string equality `ieq` of the SDL variants. -/
def ieq : List Char → List Char → Bool
  | a :: as, b :: bs => lowerChar a == lowerChar b && ieq as bs
  | [], [] => true
  | _, _ => false

/-- Decimal digit test (the digits accepted by `strtol` in base 10). -/
def isDigitChar (c : Char) : Bool :=
  '0' ≤ c && c ≤ '9'

/-- Greedy digit accumulator of `strtol`: consumes leading decimal digits. -/
def parseDigits : List Char → Nat → Nat
  | [], acc => acc
  | c :: cs, acc =>
    if isDigitChar c then parseDigits cs (10 * acc + (c.toNat - 48)) else acc

/-- Model of `strtol(val, NULL, 10)`: optional leading whitespace, optional
sign, then a greedy run of decimal digits (0 when there are none). -/
def strtol10 (s : List Char) : Int :=
  match s.dropWhile isSpaceChar with
  | [] => 0
  | c :: cs =>
    if c == '-' then -(parseDigits cs 0 : Int)
    else if c == '+' then (parseDigits cs 0 : Int)
    else (parseDigits (c :: cs) 0 : Int)

/-- Digit expansion of a natural number, most significant digit first,
prepended to `acc` (the digits `printf "%d"` emits). -/
def natToDigitsAux (n : Nat) (acc : List Char) : List Char :=
  if h : n < 10 then Char.ofNat (48 + n) :: acc
  else natToDigitsAux (n / 10) (Char.ofNat (48 + n % 10) :: acc)
termination_by n
decreasing_by exact Nat.div_lt_self (by omega) (by omega)

/-- Number of decimal digits in `n` (at least one). -/
def digitLen (n : Nat) : Nat :=
  if h : n < 10 then 1 else digitLen (n / 10) + 1
termination_by n
decreasing_by exact Nat.div_lt_self (by omega) (by omega)

/-- Text `printf "%d"` produces for an `int` value. -/
def intToDecimal (v : Int) : List Char :=
  if v < 0 then '-' :: natToDigitsAux v.natAbs [] else natToDigitsAux v.toNat []

/-- The ten decimal digit characters. -/
def digitChars : List Char := ['0','1','2','3','4','5','6','7','8','9']

/-- Characters that may occur in `intToDecimal` output. -/
def signDigitChars : List Char := '-' :: digitChars

/-- Key `fullscreen` as written in the config file. -/
def key_fullscreen : List Char := ['f','u','l','l','s','c','r','e','e','n']

/-- Key `num_stars` as written in the config file. -/
def key_num_stars : List Char := ['n','u','m','_','s','t','a','r','s']

/-- Key `delay_ms` as written in the config file. -/
def key_delay_ms : List Char := ['d','e','l','a','y','_','m','s']

/-- Key `brightness_step` as written in the config file. -/
def key_brightness_step : List Char :=
  ['b','r','i','g','h','t','n','e','s','s','_','s','t','e','p']

/-- Key `colored_stars` as written in the config file. -/
def key_colored_stars : List Char := ['c','o','l','o','r','e','d','_','s','t','a','r','s']

/-- Key `star_size` as written in the config file. -/
def key_star_size : List Char := ['s','t','a','r','_','s','i','z','e']

namespace SDLFade

/-- The configurable parameters of the SDL fade-only variant. -/
structure config where
  FULLSCREEN : Int
  NUM_STARS : Int
  DELAY_MS : Int
  BRIGHTNESS_STEP : Int
  COLORED_STARS : Int
  STAR_SIZE : Int
deriving DecidableEq

/-- star_t of the SDL fade-only variant (base color held as three shorts). -/
structure star_t where
  x : Int
  y : Int
  brightness : Int
  target_brightness : Int
  r : Int
  g : Int
  b : Int
deriving DecidableEq

/-- ini_apply_kv: assign the parsed value to the parameter named by `key`. -/
def ini_apply_kv (c : config) (key val : List Char) : config :=
  if ieq key key_fullscreen then { c with FULLSCREEN := strtol10 val }
  else if ieq key key_num_stars then { c with NUM_STARS := strtol10 val }
  else if ieq key key_delay_ms then { c with DELAY_MS := strtol10 val }
  else if ieq key key_brightness_step then { c with BRIGHTNESS_STEP := strtol10 val }
  else if ieq key key_colored_stars then { c with COLORED_STARS := strtol10 val }
  else if ieq key key_star_size then { c with STAR_SIZE := strtol10 val }
  else c

/-- Processing of one line inside `CFG_Load`: trim, skip blank/comment/section
lines, split at the first space or tab, trim key and value, apply. -/
def loadLine (c : config) (line : List Char) : config :=
  match trim line with
  | [] => c
  | ch :: rest =>
    if ch == '#' || ch == ';' || ch == '[' then c
    else
      let key := (ch :: rest).takeWhile (fun d => !(d == ' ' || d == '\t'))
      let r2 := (ch :: rest).dropWhile (fun d => !(d == ' ' || d == '\t'))
      match r2 with
      | [] => c
      | _ :: val =>
        match trim key with
        | [] => c
        | k :: ks => ini_apply_kv c (k :: ks) (trim val)

/-- CFG_Load on an already-read list of lines. -/
def CFG_LoadLines (start : config) (lines : List (List Char)) : config :=
  lines.foldl loadLine start

/-- CFG_Check: clamp every parameter into its documented range. -/
def CFG_Check (c : config) : config :=
  { FULLSCREEN := BETWEEN 0 1 c.FULLSCREEN
    NUM_STARS := BETWEEN 0 (MAXSTARS : Int) c.NUM_STARS
    DELAY_MS := BETWEEN 0 1000 c.DELAY_MS
    BRIGHTNESS_STEP := BETWEEN 1 255 c.BRIGHTNESS_STEP
    COLORED_STARS := BETWEEN 0 1 c.COLORED_STARS
    STAR_SIZE := BETWEEN 1 16 c.STAR_SIZE }

/-- CFG_Save as the list of lines it prints to the config file. -/
def CFG_SaveLines (c : config) : List (List Char) :=
  [ (r"# Run in a full screen mode. (0 = no, 1 = yes)").toList,
    key_fullscreen ++ ' ' :: intToDecimal c.FULLSCREEN,
    [],
    (r"# Number of stars displayed on the screen. (0...500)").toList,
    key_num_stars ++ ' ' :: intToDecimal c.NUM_STARS,
    [],
    (r"# Delay between frames in milliseconds. Affects animation speed. (0...1000)").toList,
    key_delay_ms ++ ' ' :: intToDecimal c.DELAY_MS,
    [],
    (r"# Step by which brightness decreases. Affects fading smoothness. (1...255)").toList,
    key_brightness_step ++ ' ' :: intToDecimal c.BRIGHTNESS_STEP,
    [],
    (r"# Use colored stars. (0 = grayscale, 1 = colored)").toList,
    key_colored_stars ++ ' ' :: intToDecimal c.COLORED_STARS,
    [],
    (r"# Define star size. (1...16)").toList,
    key_star_size ++ ' ' :: intToDecimal c.STAR_SIZE ]

/-- R_UpdateStarBrightness: decrement brightness towards the target, clamping
at the target. -/
def R_UpdateStarBrightness (step : Int) (s : star_t) : star_t :=
  if s.brightness > s.target_brightness then
    let nb := s.brightness - step
    if nb < s.target_brightness then { s with brightness := s.target_brightness }
    else { s with brightness := nb }
  else s

/-- Loop body of R_UpdateStars for one star: fade, then respawn at a fresh
random position with brightness 255 when brightness reached 0. -/
def updateOne (cfg : config) (maxx maxy : Int) (s : star_t) (seed : Nat) : star_t × Nat :=
  let s1 := R_UpdateStarBrightness cfg.BRIGHTNESS_STEP s
  if s1.brightness = 0 then
    let r1 := M_RealRandom seed
    let r2 := M_RealRandom r1.2
    let col := R_RandomizeStarColor cfg.COLORED_STARS r2.2
    ({ x := (r1.1 : Int) % maxx
       y := (r2.1 : Int) % maxy
       brightness := 255
       target_brightness := 0
       r := col.1.1, g := col.1.2.1, b := col.1.2.2 }, col.2)
  else (s1, seed)

/-- The `for (i = 0; i < count; i++)` loop of R_UpdateStars over the first
`count` stars of the pool, threading the random seed. -/
def updateLoop (cfg : config) (maxx maxy : Int) :
    Nat → List star_t → Nat → List star_t × Nat
  | 0, arr, seed => (arr, seed)
  | _ + 1, [], seed => ([], seed)
  | n + 1, s :: rest, seed =>
    let p := updateOne cfg maxx maxy s seed
    let q := updateLoop cfg maxx maxy n rest p.2
    (p.1 :: q.1, q.2)

/-- R_UpdateStars: no-op on non-positive bounds, otherwise one fade/respawn
pass over the first `count` stars. -/
def R_UpdateStars (cfg : config) (count : Nat) (maxx maxy : Int)
    (arr : List star_t) (seed : Nat) : List star_t × Nat :=
  if maxx ≤ 0 ∨ maxy ≤ 0 then (arr, seed)
  else updateLoop cfg maxx maxy count arr seed

/-- Loop body of R_InitStars for one star. -/
def initOne (cfg : config) (maxx maxy : Int) (seed : Nat) : star_t × Nat :=
  let r1 := M_RealRandom seed
  let r2 := M_RealRandom r1.2
  let r3 := M_RealRandom r2.2
  let col := R_RandomizeStarColor cfg.COLORED_STARS r3.2
  ({ x := (r1.1 : Int) % maxx
     y := (r2.1 : Int) % maxy
     brightness := (r3.1 : Int) % 256
     target_brightness := 0
     r := col.1.1, g := col.1.2.1, b := col.1.2.2 }, col.2)

/-- Initialization loop over the first `count` stars of the pool. -/
def initLoop (cfg : config) (maxx maxy : Int) :
    Nat → List star_t → Nat → List star_t × Nat
  | 0, arr, seed => (arr, seed)
  | _ + 1, [], seed => ([], seed)
  | n + 1, _ :: rest, seed =>
    let p := initOne cfg maxx maxy seed
    let q := initLoop cfg maxx maxy n rest p.2
    (p.1 :: q.1, q.2)

/-- R_InitStars: no-op on non-positive bounds, otherwise randomize the first
`count` stars. -/
def R_InitStars (cfg : config) (count : Nat) (maxx maxy : Int)
    (arr : List star_t) (seed : Nat) : List star_t × Nat :=
  if maxx ≤ 0 ∨ maxy ≤ 0 then (arr, seed)
  else initLoop cfg maxx maxy count arr seed

/-- Brightness invariant carried by every reachable star: brightness in
[0, 255] and fade target 0 (the code only ever writes target 0). -/
def brightnessInv (s : star_t) : Prop :=
  0 ≤ s.brightness ∧ s.brightness ≤ 255 ∧ s.target_brightness = 0

/-- Default star record, used as `List.getD` fallback in statements. -/
def star0 : star_t := ⟨0, 0, 0, 0, 0, 0, 0⟩

/-- n-fold application of the per-tick loop body to a single star
(with the seed threaded through). -/
def stepIter (cfg : config) (maxx maxy : Int) : Nat → star_t × Nat → star_t × Nat
  | 0, p => p
  | n + 1, p =>
    let q := stepIter cfg maxx maxy n p
    updateOne cfg maxx maxy q.1 q.2

/-- n-fold application of the whole-pool per-tick update. -/
def updIter (cfg : config) (count : Nat) (maxx maxy : Int) :
    Nat → List star_t × Nat → List star_t × Nat
  | 0, p => p
  | n + 1, p =>
    let q := updIter cfg count maxx maxy n p
    R_UpdateStars cfg count maxx maxy q.1 q.2

end SDLFade

namespace SDLDrift

/-- The configurable parameters of the SDL drifting variant. -/
structure config where
  FULLSCREEN : Int
  NUM_STARS : Int
  DELAY_MS : Int
  BRIGHTNESS_STEP : Int
  COLORED_STARS : Int
  STAR_SIZE : Int
  STAR_SPEED : Int
  SHOW_FPS : Int
deriving DecidableEq

/-- star_t of the drifting variant; the float position and speed are modelled
by rationals. -/
structure star_t where
  x : ℚ
  y : ℚ
  speed : ℚ
  brightness : Int
  r : Int
  g : Int
  b : Int
deriving DecidableEq

/-- Movement and brightness part of the drift update loop body:
`x += STAR_SPEED * speed / 6` and the clamped brightness decrement. -/
def moveFade (cfg : config) (s : star_t) : star_t :=
  let s1 := { s with x := s.x + ((cfg.STAR_SPEED : ℚ) * s.speed) / 6 }
  if s1.brightness > 0 then
    let nb := s1.brightness - cfg.BRIGHTNESS_STEP
    if nb < 0 then { s1 with brightness := 0 } else { s1 with brightness := nb }
  else s1

/-- Respawn trigger of the drift update: left the screen in the direction of
travel, or faded out. -/
def respawnCond (cfg : config) (maxx : Int) (s : star_t) : Prop :=
  (cfg.STAR_SPEED > 0 ∧ s.x > (maxx : ℚ)) ∨
  (cfg.STAR_SPEED < 0 ∧ s.x < 0) ∨ s.brightness ≤ 0

instance (cfg : config) (maxx : Int) (s : star_t) : Decidable (respawnCond cfg maxx s) := by
  unfold respawnCond
  infer_instance

/-- Loop body of the drift R_UpdateStars for one star. -/
def updateOne (cfg : config) (maxx maxy : Int) (s : star_t) (seed : Nat) : star_t × Nat :=
  let s2 := moveFade cfg s
  if respawnCond cfg maxx s2 then
    let p1 : ℚ × Nat :=
      if cfg.STAR_SPEED > 0 ∧ s2.x > (maxx : ℚ) then (0, seed)
      else if cfg.STAR_SPEED < 0 ∧ s2.x < 0 then ((maxx : ℚ), seed)
      else
        let r := M_RealRandom seed
        ((((r.1 : Int) % maxx : Int) : ℚ), r.2)
    let r2 := M_RealRandom p1.2
    let r3 := M_RealRandom r2.2
    let r4 := M_RealRandom r3.2
    let col := R_RandomizeStarColor cfg.COLORED_STARS r4.2
    ({ x := p1.1
       y := (((r2.1 : Int) % maxy : Int) : ℚ)
       speed := (1 : ℚ) / 2 + ((r3.1 % 100 : Nat) : ℚ) / 100
       brightness := 128 + (r4.1 : Int) % 128
       r := col.1.1, g := col.1.2.1, b := col.1.2.2 }, col.2)
  else (s2, seed)

/-- Update loop of the drift variant over the first `count` stars. -/
def updateLoop (cfg : config) (maxx maxy : Int) :
    Nat → List star_t → Nat → List star_t × Nat
  | 0, arr, seed => (arr, seed)
  | _ + 1, [], seed => ([], seed)
  | n + 1, s :: rest, seed =>
    let p := updateOne cfg maxx maxy s seed
    let q := updateLoop cfg maxx maxy n rest p.2
    (p.1 :: q.1, q.2)

/-- R_UpdateStars of the drift variant. -/
def R_UpdateStars (cfg : config) (count : Nat) (maxx maxy : Int)
    (arr : List star_t) (seed : Nat) : List star_t × Nat :=
  if maxx ≤ 0 ∨ maxy ≤ 0 then (arr, seed)
  else updateLoop cfg maxx maxy count arr seed

/-- Loop body of the drift R_InitStars for one star. -/
def initOne (cfg : config) (maxx maxy : Int) (seed : Nat) : star_t × Nat :=
  let r1 := M_RealRandom seed
  let r2 := M_RealRandom r1.2
  let r3 := M_RealRandom r2.2
  let r4 := M_RealRandom r3.2
  let col := R_RandomizeStarColor cfg.COLORED_STARS r4.2
  ({ x := (((r1.1 : Int) % maxx : Int) : ℚ)
     y := (((r2.1 : Int) % maxy : Int) : ℚ)
     speed := (1 : ℚ) / 10 + ((r3.1 % 100 : Nat) : ℚ) / 50
     brightness := (r4.1 : Int) % 256
     r := col.1.1, g := col.1.2.1, b := col.1.2.2 }, col.2)

/-- Initialization loop of the drift variant. -/
def initLoop (cfg : config) (maxx maxy : Int) :
    Nat → List star_t → Nat → List star_t × Nat
  | 0, arr, seed => (arr, seed)
  | _ + 1, [], seed => ([], seed)
  | n + 1, _ :: rest, seed =>
    let p := initOne cfg maxx maxy seed
    let q := initLoop cfg maxx maxy n rest p.2
    (p.1 :: q.1, q.2)

/-- R_InitStars of the drift variant. -/
def R_InitStars (cfg : config) (count : Nat) (maxx maxy : Int)
    (arr : List star_t) (seed : Nat) : List star_t × Nat :=
  if maxx ≤ 0 ∨ maxy ≤ 0 then (arr, seed)
  else initLoop cfg maxx maxy count arr seed

/-- Default star record of the drift variant, used as `List.getD` fallback. -/
def star0 : star_t := ⟨0, 0, 0, 0, 0, 0, 0⟩

/-- CFG_Check of the drift variant (two extra parameters). -/
def CFG_Check (c : config) : config :=
  { FULLSCREEN := BETWEEN 0 1 c.FULLSCREEN
    NUM_STARS := BETWEEN 0 (MAXSTARS : Int) c.NUM_STARS
    DELAY_MS := BETWEEN 0 1000 c.DELAY_MS
    BRIGHTNESS_STEP := BETWEEN 1 255 c.BRIGHTNESS_STEP
    COLORED_STARS := BETWEEN 0 1 c.COLORED_STARS
    STAR_SIZE := BETWEEN 1 16 c.STAR_SIZE
    STAR_SPEED := BETWEEN (-10) 10 c.STAR_SPEED
    SHOW_FPS := BETWEEN 0 1 c.SHOW_FPS }

/-- Scancodes distinguished by the key-down handler of the drift main loop. -/
inductive scancode
  | escape
  | f5
  | f11
  | enter
  | kpEnter
  | space
  | comma
  | period
  | up
  | down
  | right
  | left
  | other
deriving DecidableEq

/-- The SDL_EVENT_KEY_DOWN branch of the drift main loop: returns the updated
configuration, the `running` flag and the `is_fullscreen` flag.  Messages and
rendering side effects carry no configuration state and are omitted. -/
def handleKeyDown (cfg : config) (running fs : Bool) (sc : scancode) (alt : Bool) :
    config × Bool × Bool :=
  if sc = scancode.escape then (cfg, false, fs)
  else if sc = scancode.f5 then
    ({ cfg with SHOW_FPS := Int.xor cfg.SHOW_FPS 1 }, running, fs)
  else if sc = scancode.f11 ∨ ((sc = scancode.enter ∨ sc = scancode.kpEnter) ∧ alt = true) then
    ({ cfg with FULLSCREEN := if fs then 0 else 1 }, running, !fs)
  else if sc = scancode.space then
    ({ cfg with COLORED_STARS := Int.xor cfg.COLORED_STARS 1 }, running, fs)
  else if sc = scancode.comma ∧ cfg.STAR_SIZE > 1 then
    ({ cfg with STAR_SIZE := cfg.STAR_SIZE - 1 }, running, fs)
  else if sc = scancode.period ∧ cfg.STAR_SIZE < 16 then
    ({ cfg with STAR_SIZE := cfg.STAR_SIZE + 1 }, running, fs)
  else if sc = scancode.up ∧ cfg.NUM_STARS < (MAXSTARS : Int) then
    ({ cfg with NUM_STARS := cfg.NUM_STARS + 1 }, running, fs)
  else if sc = scancode.down ∧ cfg.NUM_STARS > 0 then
    ({ cfg with NUM_STARS := cfg.NUM_STARS - 1 }, running, fs)
  else if sc = scancode.right ∧ cfg.STAR_SPEED < 10 then
    ({ cfg with STAR_SPEED := cfg.STAR_SPEED + 1 }, running, fs)
  else if sc = scancode.left ∧ cfg.STAR_SPEED > -10 then
    ({ cfg with STAR_SPEED := cfg.STAR_SPEED - 1 }, running, fs)
  else (cfg, running, fs)

end SDLDrift

namespace GDI

/-- The configurable parameters of the GDI variant. -/
structure config where
  FULLSCREEN : Int
  NUM_STARS : Int
  DELAY : Int
  BRIGHTNESS_STEP : Int
  COLORED_STARS : Int
  BIG_STARS : Int
deriving DecidableEq

/-- WinAPI RGB macro: pack three channels (each taken mod 256, the BYTE cast)
into one COLORREF value. -/
def RGB (r g b : Int) : Nat :=
  (r % 256).toNat + 256 * (g % 256).toNat + 65536 * (b % 256).toNat

/-- GetRValue of a COLORREF. -/
def GetRValue (c : Nat) : Int := (c % 256 : Nat)

/-- GetGValue of a COLORREF. -/
def GetGValue (c : Nat) : Int := ((c / 256) % 256 : Nat)

/-- GetBValue of a COLORREF. -/
def GetBValue (c : Nat) : Int := ((c / 65536) % 256 : Nat)

/-- star_t of the GDI variant (color packed as a COLORREF). -/
structure star_t where
  x : Int
  y : Int
  brightness : Int
  target_brightness : Int
  color : Nat
deriving DecidableEq

/-- GDI drawing primitives issued by R_DrawStars. -/
inductive cmd
  | fillRect (left top right bottom : Int) (color : Nat)
  | setPixel (x y : Int) (color : Nat)
deriving DecidableEq

/-- Footprint side length: `(BIG_STARS > 0) ? (1 << BIG_STARS) : 1`. -/
def starSize (cfg : config) : Int :=
  if cfg.BIG_STARS > 0 then 2 ^ cfg.BIG_STARS.toNat else 1

/-- One iteration of the R_DrawStars loop: erase the footprint in black when
the star is about to extinguish, otherwise draw the brightness-scaled color. -/
def drawOne (cfg : config) (s : star_t) : cmd :=
  if s.brightness ≤ cfg.BRIGHTNESS_STEP then
    if starSize cfg > 1 then
      cmd.fillRect s.x s.y (s.x + starSize cfg) (s.y + starSize cfg) (RGB 0 0 0)
    else cmd.setPixel s.x s.y (RGB 0 0 0)
  else
    let star_color :=
      if cfg.COLORED_STARS ≠ 0 then
        RGB (GetRValue s.color * s.brightness / 255)
            (GetGValue s.color * s.brightness / 255)
            (GetBValue s.color * s.brightness / 255)
      else RGB s.brightness s.brightness s.brightness
    if starSize cfg > 1 then
      cmd.fillRect s.x s.y (s.x + starSize cfg) (s.y + starSize cfg) star_color
    else cmd.setPixel s.x s.y star_color

/-- R_DrawStars: the sequence of drawing commands issued for the star list. -/
def R_DrawStars (cfg : config) (arr : List star_t) : List cmd :=
  arr.map (drawOne cfg)

/-- Color painted by a drawing command. -/
def cmdColor : cmd → Nat
  | cmd.fillRect _ _ _ _ c => c
  | cmd.setPixel _ _ c => c

/-- Default drawing command, used as `List.getD` fallback in statements. -/
def cmd0 : cmd := cmd.setPixel 0 0 0

/-- Default star record of the GDI variant, used as `List.getD` fallback. -/
def star0 : star_t := ⟨0, 0, 0, 0, 0⟩

/-- Loop body of R_InitializeStars; `rand` is the abstract libc `rand()`
stream and `k` the call counter (C argument evaluation order of the RGB call
is modelled left to right). -/
def initOne (rand : Nat → Nat) (max_x max_y : Int) (k : Nat) : star_t × Nat :=
  ({ x := (rand k : Int) % max_x
     y := (rand (k + 1) : Int) % max_y
     brightness := (rand (k + 2) : Int) % 256
     target_brightness := 0
     color := RGB ((rand (k + 3) : Int) % 256) ((rand (k + 4) : Int) % 256)
              ((rand (k + 5) : Int) % 256) }, k + 6)

/-- Initialization loop of the GDI variant. -/
def initLoop (rand : Nat → Nat) (max_x max_y : Int) :
    Nat → List star_t → Nat → List star_t × Nat
  | 0, arr, k => (arr, k)
  | _ + 1, [], k => ([], k)
  | n + 1, _ :: rest, k =>
    let p := initOne rand max_x max_y k
    let q := initLoop rand max_x max_y n rest p.2
    (p.1 :: q.1, q.2)

/-- R_InitializeStars: no-op on non-positive bounds. -/
def R_InitializeStars (rand : Nat → Nat) (count : Nat) (max_x max_y : Int)
    (arr : List star_t) (k : Nat) : List star_t × Nat :=
  if max_x ≤ 0 ∨ max_y ≤ 0 then (arr, k)
  else initLoop rand max_x max_y count arr k

/-- R_UpdateBrightness of the GDI variant (same fade rule as the SDL ones). -/
def R_UpdateBrightness (step : Int) (s : star_t) : star_t :=
  if s.brightness > s.target_brightness then
    let nb := s.brightness - step
    if nb < s.target_brightness then { s with brightness := s.target_brightness }
    else { s with brightness := nb }
  else s

/-- Loop body of the GDI R_UpdateStars. -/
def updateOne (cfg : config) (rand : Nat → Nat) (max_x max_y : Int)
    (s : star_t) (k : Nat) : star_t × Nat :=
  let s1 := R_UpdateBrightness cfg.BRIGHTNESS_STEP s
  if s1.brightness = 0 then
    ({ x := (rand k : Int) % max_x
       y := (rand (k + 1) : Int) % max_y
       brightness := 255
       target_brightness := 0
       color := RGB ((rand (k + 2) : Int) % 256) ((rand (k + 3) : Int) % 256)
                ((rand (k + 4) : Int) % 256) }, k + 5)
  else (s1, k)

/-- Update loop of the GDI variant. -/
def updateLoop (cfg : config) (rand : Nat → Nat) (max_x max_y : Int) :
    Nat → List star_t → Nat → List star_t × Nat
  | 0, arr, k => (arr, k)
  | _ + 1, [], k => ([], k)
  | n + 1, s :: rest, k =>
    let p := updateOne cfg rand max_x max_y s k
    let q := updateLoop cfg rand max_x max_y n rest p.2
    (p.1 :: q.1, q.2)

/-- R_UpdateStars of the GDI variant: no-op on non-positive bounds. -/
def R_UpdateStars (cfg : config) (rand : Nat → Nat) (count : Nat)
    (max_x max_y : Int) (arr : List star_t) (k : Nat) : List star_t × Nat :=
  if max_x ≤ 0 ∨ max_y ≤ 0 then (arr, k)
  else updateLoop cfg rand max_x max_y count arr k

/-- M_CheckConfig of the GDI variant. -/
def M_CheckConfig (c : config) : config :=
  { FULLSCREEN := BETWEEN 0 1 c.FULLSCREEN
    NUM_STARS := BETWEEN 0 (MAXSTARS : Int) c.NUM_STARS
    DELAY := BETWEEN 0 1000 c.DELAY
    BRIGHTNESS_STEP := BETWEEN 1 255 c.BRIGHTNESS_STEP
    COLORED_STARS := BETWEEN 0 1 c.COLORED_STARS
    BIG_STARS := BETWEEN 0 4 c.BIG_STARS }

end GDI

theorem dropWhile_head_false (p : Char → Bool) (l : List Char)
    (h : ∀ x ∈ l.head?, p x = false) : l.dropWhile p = l := by
  cases l with
  | nil => rfl
  | cons a t =>
    have ha : p a = false := h a (by simp)
    simp [List.dropWhile_cons, ha]

theorem trim_eq_self (l : List Char)
    (h1 : ∀ x ∈ l.head?, isSpaceChar x = false)
    (h2 : ∀ x ∈ l.getLast?, isSpaceChar x = false) : trim l = l := by
  unfold trim
  rw [dropWhile_head_false _ _ h1]
  rw [dropWhile_head_false _ _ (by rw [List.head?_reverse]; exact h2)]
  exact l.reverse_reverse

theorem digitChar_mem (d : Nat) (h : d < 10) : Char.ofNat (48 + d) ∈ digitChars := by
  interval_cases d <;> decide

theorem natToDigitsAux_mem (n : Nat) (acc : List Char) :
    ∀ x ∈ natToDigitsAux n acc, x ∈ digitChars ∨ x ∈ acc := by
  induction n using Nat.strong_induction_on generalizing acc with
  | _ n ih =>
    intro x hx
    rw [natToDigitsAux] at hx
    split at hx
    · rename_i h
      rcases List.mem_cons.mp hx with h1 | h1
      · subst h1
        exact Or.inl (digitChar_mem n h)
      · exact Or.inr h1
    · rename_i h
      have := ih (n / 10) (Nat.div_lt_self (by omega) (by omega)) _ x hx
      rcases this with h1 | h1
      · exact Or.inl h1
      · rcases List.mem_cons.mp h1 with h2 | h2
        · subst h2
          exact Or.inl (digitChar_mem _ (Nat.mod_lt _ (by omega)))
        · exact Or.inr h2

theorem natToDigitsAux_cons (n : Nat) (acc : List Char) :
    ∃ c cs, natToDigitsAux n acc = c :: cs := by
  induction n using Nat.strong_induction_on generalizing acc with
  | _ n ih =>
    rw [natToDigitsAux]
    split
    · exact ⟨_, _, rfl⟩
    · rename_i h
      exact ih (n / 10) (Nat.div_lt_self (by omega) (by omega)) _

theorem intToDecimal_ne_nil (v : Int) : intToDecimal v ≠ [] := by
  unfold intToDecimal
  split
  · simp
  · obtain ⟨c, cs, hc⟩ := natToDigitsAux_cons v.toNat []
    simp [hc]

theorem intToDecimal_mem (v : Int) : ∀ x ∈ intToDecimal v, x ∈ signDigitChars := by
  unfold intToDecimal
  split <;> intro x hx
  · rcases List.mem_cons.mp hx with h | h
    · subst h; decide
    · rcases natToDigitsAux_mem _ _ x h with h1 | h1
      · exact List.mem_cons_of_mem _ h1
      · simp at h1
  · rcases natToDigitsAux_mem _ _ x hx with h1 | h1
    · exact List.mem_cons_of_mem _ h1
    · simp at h1

theorem signDigitChars_not_space : ∀ x ∈ signDigitChars, isSpaceChar x = false := by decide

theorem intToDecimal_not_space (v : Int) : ∀ x ∈ intToDecimal v, isSpaceChar x = false :=
  fun x hx => signDigitChars_not_space x (intToDecimal_mem v x hx)

theorem mem_of_mem_getLast? {x : Char} {l : List Char} (hx : x ∈ l.getLast?) : x ∈ l := by
  rcases List.mem_getLast?_eq_getLast hx with ⟨h, rfl⟩
  exact List.getLast_mem h

theorem trim_intToDecimal (v : Int) : trim (intToDecimal v) = intToDecimal v := by
  apply trim_eq_self
  · intro x hx
    exact intToDecimal_not_space v x (List.mem_of_mem_head? hx)
  · intro x hx
    exact intToDecimal_not_space v x (mem_of_mem_getLast? hx)

theorem trim_kvLine (key : List Char) (v : Int) (a : Char) (ks : List Char)
    (hk : key = a :: ks) (ha : isSpaceChar a = false) :
    trim (key ++ ' ' :: intToDecimal v) = key ++ ' ' :: intToDecimal v := by
  apply trim_eq_self
  · intro x hx
    subst hk
    simp only [List.cons_append, List.head?_cons, Option.mem_def, Option.some.injEq] at hx
    subst hx
    exact ha
  · intro x hx
    rw [List.append_cons, List.getLast?_append] at hx
    have hne := intToDecimal_ne_nil v
    rcases hd : (intToDecimal v).getLast? with _ | c
    · rcases List.exists_cons_of_ne_nil hne with ⟨c, cs, hcc⟩
      rw [hcc, List.getLast?_eq_getLast_of_ne_nil (by simp)] at hd
      exact absurd hd (by simp)
    · rw [hd] at hx
      simp only [Option.or_some, Option.mem_def, Option.some.injEq] at hx
      subst hx
      exact intToDecimal_not_space v c (mem_of_mem_getLast? (by rw [hd]; rfl))

theorem parse_digit_cons (r : Nat) (h : r < 10) (cs : List Char) (a : Nat) :
    parseDigits (Char.ofNat (48 + r) :: cs) a = parseDigits cs (10 * a + r) := by
  interval_cases r <;> simp [parseDigits, isDigitChar]

theorem parse_natToDigitsAux (n : Nat) : ∀ (cs : List Char) (a : Nat),
    parseDigits (natToDigitsAux n cs) a = parseDigits cs (a * 10 ^ digitLen n + n) := by
  induction n using Nat.strong_induction_on with
  | _ n ih =>
    intro cs a
    rw [natToDigitsAux, digitLen]
    split
    · rename_i h
      rw [parse_digit_cons n h]
      norm_num
      ring_nf
    · rename_i h
      rw [ih (n / 10) (Nat.div_lt_self (by omega) (by omega))]
      rw [parse_digit_cons (n % 10) (Nat.mod_lt _ (by omega))]
      have hmod := Nat.div_add_mod n 10
      have : 10 * (a * 10 ^ digitLen (n / 10) + n / 10) + n % 10
        = a * 10 ^ (digitLen (n / 10) + 1) + n := by
        rw [pow_succ]
        ring_nf
        omega
      rw [this]

theorem parse_natToDigits (n : Nat) : parseDigits (natToDigitsAux n []) 0 = n := by
  rw [parse_natToDigitsAux]
  simp [parseDigits]

theorem digitChars_not_space : ∀ x ∈ digitChars, isSpaceChar x = false := by decide

theorem digitChars_not_minus : ∀ x ∈ digitChars, (x == '-') = false := by decide

theorem digitChars_not_plus : ∀ x ∈ digitChars, (x == '+') = false := by decide

theorem strtol10_intToDecimal (v : Int) : strtol10 (intToDecimal v) = v := by
  unfold intToDecimal
  split
  · rename_i hv
    unfold strtol10
    rw [dropWhile_head_false _ _ (by
      intro x hx
      simp only [List.head?_cons, Option.mem_def, Option.some.injEq] at hx
      subst hx
      decide)]
    show -(parseDigits (natToDigitsAux v.natAbs []) 0 : Int) = v
    rw [parse_natToDigits]
    omega
  · rename_i hv
    obtain ⟨c, cs, hc⟩ := natToDigitsAux_cons v.toNat []
    have hcmem : c ∈ digitChars := by
      rcases natToDigitsAux_mem v.toNat [] c (by rw [hc]; exact List.mem_cons_self _ _) with h | h
      · exact h
      · simp at h
    rw [hc]
    unfold strtol10
    rw [dropWhile_head_false _ _ (by
      intro x hx
      simp only [List.head?_cons, Option.mem_def, Option.some.injEq] at hx
      subst hx
      exact digitChars_not_space c hcmem)]
    show (if c == '-' then -(parseDigits cs 0 : Int)
          else if c == '+' then (parseDigits cs 0 : Int)
          else (parseDigits (c :: cs) 0 : Int)) = v
    rw [if_neg (by simp [digitChars_not_minus c hcmem])]
    rw [if_neg (by simp [digitChars_not_plus c hcmem])]
    rw [← hc, parse_natToDigits]
    omega

theorem loadLine_blank (c : SDLFade.config) : SDLFade.loadLine c [] = c := rfl

theorem loadLine_comment1 (c : SDLFade.config) :
    SDLFade.loadLine c ((r"# Run in a full screen mode. (0 = no, 1 = yes)").toList) = c := rfl

theorem loadLine_comment2 (c : SDLFade.config) :
    SDLFade.loadLine c ((r"# Number of stars displayed on the screen. (0...500)").toList) = c := rfl

theorem loadLine_comment3 (c : SDLFade.config) :
    SDLFade.loadLine c ((r"# Delay between frames in milliseconds. Affects animation speed. (0...1000)").toList) = c := rfl

theorem loadLine_comment4 (c : SDLFade.config) :
    SDLFade.loadLine c ((r"# Step by which brightness decreases. Affects fading smoothness. (1...255)").toList) = c := rfl

theorem loadLine_comment5 (c : SDLFade.config) :
    SDLFade.loadLine c ((r"# Use colored stars. (0 = grayscale, 1 = colored)").toList) = c := rfl

theorem loadLine_comment6 (c : SDLFade.config) :
    SDLFade.loadLine c ((r"# Define star size. (1...16)").toList) = c := rfl

theorem loadLine_fullscreen (c : SDLFade.config) (v : Int) :
    SDLFade.loadLine c (key_fullscreen ++ ' ' :: intToDecimal v) = { c with FULLSCREEN := v } := by
  unfold SDLFade.loadLine
  rw [trim_kvLine key_fullscreen v 'f' _ rfl (by decide)]
  show SDLFade.ini_apply_kv c key_fullscreen (trim (intToDecimal v)) = _
  rw [trim_intToDecimal]
  show { c with FULLSCREEN := strtol10 (intToDecimal v) } = _
  rw [strtol10_intToDecimal]

theorem loadLine_num_stars (c : SDLFade.config) (v : Int) :
    SDLFade.loadLine c (key_num_stars ++ ' ' :: intToDecimal v) = { c with NUM_STARS := v } := by
  unfold SDLFade.loadLine
  rw [trim_kvLine key_num_stars v 'n' _ rfl (by decide)]
  show SDLFade.ini_apply_kv c key_num_stars (trim (intToDecimal v)) = _
  rw [trim_intToDecimal]
  show { c with NUM_STARS := strtol10 (intToDecimal v) } = _
  rw [strtol10_intToDecimal]

theorem loadLine_delay_ms (c : SDLFade.config) (v : Int) :
    SDLFade.loadLine c (key_delay_ms ++ ' ' :: intToDecimal v) = { c with DELAY_MS := v } := by
  unfold SDLFade.loadLine
  rw [trim_kvLine key_delay_ms v 'd' _ rfl (by decide)]
  show SDLFade.ini_apply_kv c key_delay_ms (trim (intToDecimal v)) = _
  rw [trim_intToDecimal]
  show { c with DELAY_MS := strtol10 (intToDecimal v) } = _
  rw [strtol10_intToDecimal]

theorem loadLine_brightness_step (c : SDLFade.config) (v : Int) :
    SDLFade.loadLine c (key_brightness_step ++ ' ' :: intToDecimal v) = { c with BRIGHTNESS_STEP := v } := by
  unfold SDLFade.loadLine
  rw [trim_kvLine key_brightness_step v 'b' _ rfl (by decide)]
  show SDLFade.ini_apply_kv c key_brightness_step (trim (intToDecimal v)) = _
  rw [trim_intToDecimal]
  show { c with BRIGHTNESS_STEP := strtol10 (intToDecimal v) } = _
  rw [strtol10_intToDecimal]

theorem loadLine_colored_stars (c : SDLFade.config) (v : Int) :
    SDLFade.loadLine c (key_colored_stars ++ ' ' :: intToDecimal v) = { c with COLORED_STARS := v } := by
  unfold SDLFade.loadLine
  rw [trim_kvLine key_colored_stars v 'c' _ rfl (by decide)]
  show SDLFade.ini_apply_kv c key_colored_stars (trim (intToDecimal v)) = _
  rw [trim_intToDecimal]
  show { c with COLORED_STARS := strtol10 (intToDecimal v) } = _
  rw [strtol10_intToDecimal]

theorem loadLine_star_size (c : SDLFade.config) (v : Int) :
    SDLFade.loadLine c (key_star_size ++ ' ' :: intToDecimal v) = { c with STAR_SIZE := v } := by
  unfold SDLFade.loadLine
  rw [trim_kvLine key_star_size v 's' _ rfl (by decide)]
  show SDLFade.ini_apply_kv c key_star_size (trim (intToDecimal v)) = _
  rw [trim_intToDecimal]
  show { c with STAR_SIZE := strtol10 (intToDecimal v) } = _
  rw [strtol10_intToDecimal]

theorem between_idem (l u x : Int) (h : l ≤ u) :
    BETWEEN l u (BETWEEN l u x) = BETWEEN l u x := by
  unfold BETWEEN
  split_ifs <;> omega

theorem castmod_nonneg (r : Nat) (m : Int) (hm : 0 < m) : 0 ≤ (r : Int) % m :=
  Int.emod_nonneg _ (by omega)

theorem castmod_lt (r : Nat) (m : Int) (hm : 0 < m) : (r : Int) % m < m :=
  Int.emod_lt_of_pos _ hm

theorem M_RealRandom_lt (seed : Nat) : (M_RealRandom seed).1 < 32768 := by
  show ((seed * 214013 + 2531011) % 4294967296) >>> 17 < 32768
  rw [Nat.shiftRight_eq_div_pow]
  have h : (seed * 214013 + 2531011) % 4294967296 < 4294967296 :=
    Nat.mod_lt _ (by norm_num)
  have h2 : (2 : Nat) ^ 17 = 131072 := by norm_num
  rw [h2]
  omega

/-- C5: BETWEEN returns in-range values unchanged and maps out-of-range values
to the violated bound (the lower bound when x < l, the upper bound when
u < x and the range is proper); the config check clamps BRIGHTNESS_STEP = 999
to 255 and NUM_STARS = -5 to 0. -/
theorem C5_theorem (l u x : Int) :
    (l ≤ x → x ≤ u → BETWEEN l u x = x) ∧
    (x < l → BETWEEN l u x = l) ∧
    (l ≤ u → u < x → BETWEEN l u x = u) ∧
    (SDLFade.CFG_Check ⟨0, -5, 50, 999, 1, 3⟩).BRIGHTNESS_STEP = 255 ∧
    (SDLFade.CFG_Check ⟨0, -5, 50, 999, 1, 3⟩).NUM_STARS = 0 := by
  refine ⟨fun h1 h2 => ?_, fun h => ?_, fun hlu h => ?_, by decide, by decide⟩
  · unfold BETWEEN
    rw [if_neg (by omega), if_neg (by omega)]
  · unfold BETWEEN
    rw [if_pos h]
  · unfold BETWEEN
    rw [if_neg (by omega), if_pos (by omega)]

/-- C5 witness: the clamp evaluated at concrete in-range and out-of-range
inputs through C5_theorem. -/
theorem C5_witness :
    ((0 : Int) ≤ 5 ∧ (5 : Int) ≤ 10 ∧ BETWEEN 0 10 5 = 5) ∧
    ((-3 : Int) < 0 ∧ BETWEEN 0 10 (-3) = 0) ∧
    ((0 : Int) ≤ 10 ∧ (10 : Int) < 12 ∧ BETWEEN 0 10 12 = 10) :=
  ⟨⟨by decide, by decide, (C5_theorem 0 10 5).1 (by decide) (by decide)⟩,
   ⟨by decide, (C5_theorem 0 10 (-3)).2.1 (by decide)⟩,
   ⟨by decide, by decide, (C5_theorem 0 10 12).2.2.1 (by decide) (by decide)⟩⟩

/-- C6: reloading the lines written by CFG_Save restores exactly the saved
configuration (for every starting configuration of the loader), and CFG_Check
is idempotent. -/
theorem C6_theorem :
    (∀ (c start : SDLFade.config),
        SDLFade.CFG_LoadLines start (SDLFade.CFG_SaveLines c) = c) ∧
    (∀ c : SDLFade.config,
        SDLFade.CFG_Check (SDLFade.CFG_Check c) = SDLFade.CFG_Check c) := by
  constructor
  · intro c start
    simp only [SDLFade.CFG_SaveLines, SDLFade.CFG_LoadLines, List.foldl_cons, List.foldl_nil,
      loadLine_blank, loadLine_comment1, loadLine_comment2, loadLine_comment3, loadLine_comment4,
      loadLine_comment5, loadLine_comment6, loadLine_fullscreen, loadLine_num_stars,
      loadLine_delay_ms, loadLine_brightness_step, loadLine_colored_stars, loadLine_star_size]
  · intro c
    unfold SDLFade.CFG_Check
    rw [between_idem 0 1 c.FULLSCREEN (by norm_num),
      between_idem 0 _ c.NUM_STARS (by norm_num [MAXSTARS]),
      between_idem 0 1000 c.DELAY_MS (by norm_num),
      between_idem 1 255 c.BRIGHTNESS_STEP (by norm_num),
      between_idem 0 1 c.COLORED_STARS (by norm_num),
      between_idem 1 16 c.STAR_SIZE (by norm_num)]

/-- C8: with non-positive bounds, initialization and the per-tick update of
every variant return the star pool (and the random state) unchanged. -/
theorem C8_theorem (maxx maxy : Int) (h : maxx ≤ 0 ∨ maxy ≤ 0)
    (cfgF : SDLFade.config) (cfgD : SDLDrift.config) (cfgG : GDI.config)
    (count : Nat) (arrF : List SDLFade.star_t) (arrD : List SDLDrift.star_t)
    (arrG : List GDI.star_t) (seed k : Nat) (rand : Nat → Nat) :
    SDLFade.R_InitStars cfgF count maxx maxy arrF seed = (arrF, seed) ∧
    SDLFade.R_UpdateStars cfgF count maxx maxy arrF seed = (arrF, seed) ∧
    SDLDrift.R_InitStars cfgD count maxx maxy arrD seed = (arrD, seed) ∧
    SDLDrift.R_UpdateStars cfgD count maxx maxy arrD seed = (arrD, seed) ∧
    GDI.R_InitializeStars rand count maxx maxy arrG k = (arrG, k) ∧
    GDI.R_UpdateStars cfgG rand count maxx maxy arrG k = (arrG, k) := by
  refine ⟨?_, ?_, ?_, ?_, ?_, ?_⟩
  · unfold SDLFade.R_InitStars
    rw [if_pos h]
  · unfold SDLFade.R_UpdateStars
    rw [if_pos h]
  · unfold SDLDrift.R_InitStars
    rw [if_pos h]
  · unfold SDLDrift.R_UpdateStars
    rw [if_pos h]
  · unfold GDI.R_InitializeStars
    rw [if_pos h]
  · unfold GDI.R_UpdateStars
    rw [if_pos h]

/-- C8 witness: the no-op evaluated at a concrete zero-width window through
C8_theorem. -/
theorem C8_witness :
    ((0 : Int) ≤ 0 ∨ (5 : Int) ≤ 0) ∧
    SDLFade.R_InitStars ⟨0, 1, 15, 1, 1, 3⟩ 1 0 5 [⟨1, 2, 3, 0, 4, 5, 6⟩] 9
      = ([⟨1, 2, 3, 0, 4, 5, 6⟩], 9) ∧
    SDLFade.R_UpdateStars ⟨0, 1, 15, 1, 1, 3⟩ 1 0 5 [⟨1, 2, 3, 0, 4, 5, 6⟩] 9
      = ([⟨1, 2, 3, 0, 4, 5, 6⟩], 9) :=
  ⟨Or.inl (by decide),
   (C8_theorem 0 5 (Or.inl (by decide)) ⟨0, 1, 15, 1, 1, 3⟩ ⟨0, 1, 15, 1, 1, 3, -3, 0⟩
      ⟨0, 1, 100, 15, 1, 1⟩ 1 [⟨1, 2, 3, 0, 4, 5, 6⟩] [] [] 9 0 (fun _ => 0)).1,
   (C8_theorem 0 5 (Or.inl (by decide)) ⟨0, 1, 15, 1, 1, 3⟩ ⟨0, 1, 15, 1, 1, 3, -3, 0⟩
      ⟨0, 1, 100, 15, 1, 1⟩ 1 [⟨1, 2, 3, 0, 4, 5, 6⟩] [] [] 9 0 (fun _ => 0)).2.1⟩

/-- C10: M_RealRandom is the deterministic LCG seed update
`seed * 214013 + 2531011 (mod 2^32)` whose returned value is the new seed
shifted right by 17 bits, hence always in [0, 32767]; consequently the result
reduced mod n lies in [0, n-1] for every positive n. -/
theorem C10_theorem (seed n : Nat) (hn : 0 < n) :
    M_RealRandom seed = (((seed * 214013 + 2531011) % 4294967296) >>> 17,
      (seed * 214013 + 2531011) % 4294967296) ∧
    (M_RealRandom seed).1 ≤ 32767 ∧
    (M_RealRandom seed).1 % n < n := by
  refine ⟨rfl, ?_, Nat.mod_lt _ hn⟩
  have h := M_RealRandom_lt seed
  omega

/-- C10 witness: the generator evaluated at seed 1 with modulus 5 through
C10_theorem. -/
theorem C10_witness :
    0 < 5 ∧ M_RealRandom 1 = (20, 2745024) ∧ (M_RealRandom 1).1 ≤ 32767 ∧
    (M_RealRandom 1).1 % 5 < 5 :=
  ⟨by decide, by decide, (C10_theorem 1 5 (by decide)).2.1, (C10_theorem 1 5 (by decide)).2.2⟩

theorem GetRValue_RGB (a b c : Int) (h0 : 0 ≤ a) (h1 : a < 256) :
    GDI.GetRValue (GDI.RGB a b c) = a := by
  unfold GDI.GetRValue GDI.RGB
  rw [Int.emod_eq_of_lt h0 h1]
  have hx : a.toNat < 256 := by omega
  have h : (a.toNat + 256 * (b % 256).toNat + 65536 * (c % 256).toNat) % 256 = a.toNat := by
    omega
  rw [h]
  omega

theorem GetGValue_RGB (a b c : Int) (h0 : 0 ≤ a) (h1 : a < 256)
    (h2 : 0 ≤ b) (h3 : b < 256) : GDI.GetGValue (GDI.RGB a b c) = b := by
  unfold GDI.GetGValue GDI.RGB
  rw [Int.emod_eq_of_lt h0 h1, Int.emod_eq_of_lt h2 h3]
  have hx : a.toNat < 256 := by omega
  have hy : b.toNat < 256 := by omega
  have h : (a.toNat + 256 * b.toNat + 65536 * (c % 256).toNat) / 256 % 256 = b.toNat := by
    omega
  rw [h]
  omega

theorem GetBValue_RGB (a b c : Int) (h0 : 0 ≤ a) (h1 : a < 256)
    (h2 : 0 ≤ b) (h3 : b < 256) (h4 : 0 ≤ c) (h5 : c < 256) :
    GDI.GetBValue (GDI.RGB a b c) = c := by
  unfold GDI.GetBValue GDI.RGB
  rw [Int.emod_eq_of_lt h0 h1, Int.emod_eq_of_lt h2 h3, Int.emod_eq_of_lt h4 h5]
  have hx : a.toNat < 256 := by omega
  have hy : b.toNat < 256 := by omega
  have hz : c.toNat < 256 := by omega
  have h : (a.toNat + 256 * b.toNat + 65536 * c.toNat) / 65536 % 256 = c.toNat := by
    omega
  rw [h]
  omega

theorem GetValue_bounds (c : Nat) :
    (0 ≤ GDI.GetRValue c ∧ GDI.GetRValue c ≤ 255) ∧
    (0 ≤ GDI.GetGValue c ∧ GDI.GetGValue c ≤ 255) ∧
    (0 ≤ GDI.GetBValue c ∧ GDI.GetBValue c ≤ 255) := by
  unfold GDI.GetRValue GDI.GetGValue GDI.GetBValue
  have h1 : c % 256 < 256 := Nat.mod_lt _ (by norm_num)
  have h2 : c / 256 % 256 < 256 := Nat.mod_lt _ (by norm_num)
  have h3 : c / 65536 % 256 < 256 := Nat.mod_lt _ (by norm_num)
  omega

theorem scaled_channel_bounds (base br : Int) (hb0 : 0 ≤ base) (hb1 : base ≤ 255)
    (h0 : 0 ≤ br) (h1 : br ≤ 255) : 0 ≤ base * br / 255 ∧ base * br / 255 < 256 := by
  constructor
  · exact Int.ediv_nonneg (by positivity) (by norm_num)
  · have h : base * br ≤ 255 * 255 := by nlinarith
    have h2 : base * br / 255 ≤ 255 * 255 / 255 :=
      Int.ediv_le_ediv (by norm_num) h
    omega

theorem getD_map_drawOne (cfg : GDI.config) (arr : List GDI.star_t) :
    ∀ i, i < arr.length →
      (GDI.R_DrawStars cfg arr).getD i GDI.cmd0 = GDI.drawOne cfg (arr.getD i GDI.star0) := by
  induction arr with
  | nil =>
    intro i hi
    simp at hi
  | cons a t ih =>
    intro i hi
    cases i with
    | zero => rfl
    | succ j =>
      have hj : j < t.length := by
        simpa using Nat.lt_of_succ_lt_succ hi
      have := ih j hj
      simpa [GDI.R_DrawStars, List.getD_cons_succ] using this

theorem cmdColor_branch (sz : Prop) [Decidable sz] (x y a b : Int) (col : Nat) :
    GDI.cmdColor (if sz then GDI.cmd.fillRect x y a b col else GDI.cmd.setPixel x y col) = col := by
  split <;> rfl

/-- C7: in the GDI (persistent framebuffer) variant, a star whose brightness
is at or below one BRIGHTNESS_STEP produces exactly one black erase command
over its footprint and no normal draw; a star above the threshold is drawn
with its brightness-scaled color (per-channel base*brightness/255 in colored
mode, the raw brightness as gray in grayscale mode). -/
theorem C7_theorem (cfg : GDI.config) (arr : List GDI.star_t) (st : GDI.star_t)
    (hb0 : 0 ≤ st.brightness) (hb1 : st.brightness ≤ 255) :
    (GDI.R_DrawStars cfg arr).length = arr.length ∧
    (∀ i, i < arr.length →
      (GDI.R_DrawStars cfg arr).getD i GDI.cmd0 = GDI.drawOne cfg (arr.getD i GDI.star0)) ∧
    (st.brightness ≤ cfg.BRIGHTNESS_STEP →
      GDI.drawOne cfg st =
        (if GDI.starSize cfg > 1 then
          GDI.cmd.fillRect st.x st.y (st.x + GDI.starSize cfg) (st.y + GDI.starSize cfg)
            (GDI.RGB 0 0 0)
        else GDI.cmd.setPixel st.x st.y (GDI.RGB 0 0 0))) ∧
    (cfg.BRIGHTNESS_STEP < st.brightness → cfg.COLORED_STARS ≠ 0 →
      GDI.GetRValue (GDI.cmdColor (GDI.drawOne cfg st))
          = GDI.GetRValue st.color * st.brightness / 255 ∧
      GDI.GetGValue (GDI.cmdColor (GDI.drawOne cfg st))
          = GDI.GetGValue st.color * st.brightness / 255 ∧
      GDI.GetBValue (GDI.cmdColor (GDI.drawOne cfg st))
          = GDI.GetBValue st.color * st.brightness / 255) ∧
    (cfg.BRIGHTNESS_STEP < st.brightness → cfg.COLORED_STARS = 0 →
      GDI.GetRValue (GDI.cmdColor (GDI.drawOne cfg st)) = st.brightness ∧
      GDI.GetGValue (GDI.cmdColor (GDI.drawOne cfg st)) = st.brightness ∧
      GDI.GetBValue (GDI.cmdColor (GDI.drawOne cfg st)) = st.brightness) := by
  refine ⟨by simp [GDI.R_DrawStars], getD_map_drawOne cfg arr, fun h => ?_, fun h hc => ?_,
    fun h hc => ?_⟩
  · unfold GDI.drawOne
    rw [if_pos h]
  · unfold GDI.drawOne
    rw [if_neg (by omega)]
    rw [if_pos hc]
    rw [cmdColor_branch]
    obtain ⟨hr, hg, hb⟩ := GetValue_bounds st.color
    obtain ⟨hr1, hr2⟩ := scaled_channel_bounds _ _ hr.1 hr.2 hb0 hb1
    obtain ⟨hg1, hg2⟩ := scaled_channel_bounds _ _ hg.1 hg.2 hb0 hb1
    obtain ⟨hbb1, hbb2⟩ := scaled_channel_bounds _ _ hb.1 hb.2 hb0 hb1
    exact ⟨GetRValue_RGB _ _ _ hr1 hr2, GetGValue_RGB _ _ _ hr1 hr2 hg1 hg2,
      GetBValue_RGB _ _ _ hr1 hr2 hg1 hg2 hbb1 hbb2⟩
  · unfold GDI.drawOne
    rw [if_neg (by omega)]
    rw [if_neg (show ¬cfg.COLORED_STARS ≠ 0 from by simp [hc])]
    rw [cmdColor_branch]
    have h1 : st.brightness < 256 := by omega
    exact ⟨GetRValue_RGB _ _ _ hb0 h1, GetGValue_RGB _ _ _ hb0 h1 hb0 h1,
      GetBValue_RGB _ _ _ hb0 h1 hb0 h1 hb0 h1⟩

/-- C7 witness: the two drawing regimes evaluated on concrete stars through
C7_theorem (brightness 10 at threshold 15 is erased; brightness 200 above
threshold is drawn scaled). -/
theorem C7_witness :
    ((0 : Int) ≤ 10 ∧ (10 : Int) ≤ 255 ∧ (10 : Int) ≤ 15 ∧
      GDI.drawOne ⟨0, 100, 100, 15, 1, 1⟩ ⟨3, 4, 10, 0, 77⟩ =
        (if GDI.starSize ⟨0, 100, 100, 15, 1, 1⟩ > 1 then
          GDI.cmd.fillRect 3 4 (3 + GDI.starSize ⟨0, 100, 100, 15, 1, 1⟩)
            (4 + GDI.starSize ⟨0, 100, 100, 15, 1, 1⟩) (GDI.RGB 0 0 0)
        else GDI.cmd.setPixel 3 4 (GDI.RGB 0 0 0))) ∧
    ((15 : Int) < 200 ∧ (1 : Int) ≠ 0 ∧
      GDI.GetRValue (GDI.cmdColor (GDI.drawOne ⟨0, 100, 100, 15, 1, 1⟩ ⟨3, 4, 200, 0, 77⟩))
        = GDI.GetRValue 77 * 200 / 255) := by
  constructor
  · exact ⟨by decide, by decide, by decide,
      (C7_theorem ⟨0, 100, 100, 15, 1, 1⟩ [] ⟨3, 4, 10, 0, 77⟩ (by decide) (by decide)).2.2.1
        (by decide)⟩
  · exact ⟨by decide, by decide,
      ((C7_theorem ⟨0, 100, 100, 15, 1, 1⟩ [] ⟨3, 4, 200, 0, 77⟩ (by decide)
        (by decide)).2.2.2.1 (by decide) (by decide)).1⟩

set_option maxHeartbeats 1000000 in
/-- C9: every key-down handler of the drift variant preserves the configured
ranges NUM_STARS in [0,500], STAR_SIZE in [1,16] and STAR_SPEED in [-10,10]:
each increment or decrement key is guarded at its boundary. -/
theorem C9_theorem (cfg : SDLDrift.config) (running fs : Bool)
    (sc : SDLDrift.scancode) (alt : Bool)
    (h1 : 0 ≤ cfg.NUM_STARS) (h2 : cfg.NUM_STARS ≤ 500)
    (h3 : 1 ≤ cfg.STAR_SIZE) (h4 : cfg.STAR_SIZE ≤ 16)
    (h5 : -10 ≤ cfg.STAR_SPEED) (h6 : cfg.STAR_SPEED ≤ 10) :
    0 ≤ (SDLDrift.handleKeyDown cfg running fs sc alt).1.NUM_STARS ∧
    (SDLDrift.handleKeyDown cfg running fs sc alt).1.NUM_STARS ≤ 500 ∧
    1 ≤ (SDLDrift.handleKeyDown cfg running fs sc alt).1.STAR_SIZE ∧
    (SDLDrift.handleKeyDown cfg running fs sc alt).1.STAR_SIZE ≤ 16 ∧
    -10 ≤ (SDLDrift.handleKeyDown cfg running fs sc alt).1.STAR_SPEED ∧
    (SDLDrift.handleKeyDown cfg running fs sc alt).1.STAR_SPEED ≤ 10 := by
  unfold SDLDrift.handleKeyDown
  have hms : ((MAXSTARS : Nat) : Int) = 500 := by norm_num [MAXSTARS]
  rw [hms]
  split_ifs <;>
    refine ⟨?_, ?_, ?_, ?_, ?_, ?_⟩ <;>
    dsimp only <;>
    omega

/-- C9 witness: the up-arrow handler evaluated at a concrete configuration
through C9_theorem. -/
theorem C9_witness :
    ((0 : Int) ≤ 100 ∧ (100 : Int) ≤ 500 ∧ (1 : Int) ≤ 3 ∧ (3 : Int) ≤ 16 ∧
      (-10 : Int) ≤ -3 ∧ (-3 : Int) ≤ 10) ∧
    0 ≤ (SDLDrift.handleKeyDown ⟨1, 100, 15, 1, 1, 3, -3, 0⟩ true false
      SDLDrift.scancode.up false).1.NUM_STARS ∧
    (SDLDrift.handleKeyDown ⟨1, 100, 15, 1, 1, 3, -3, 0⟩ true false
      SDLDrift.scancode.up false).1.NUM_STARS ≤ 500 :=
  ⟨⟨by decide, by decide, by decide, by decide, by decide, by decide⟩,
   (C9_theorem ⟨1, 100, 15, 1, 1, 3, -3, 0⟩ true false SDLDrift.scancode.up false
     (by decide) (by decide) (by decide) (by decide) (by decide) (by decide)).1,
   (C9_theorem ⟨1, 100, 15, 1, 1, 3, -3, 0⟩ true false SDLDrift.scancode.up false
     (by decide) (by decide) (by decide) (by decide) (by decide) (by decide)).2.1⟩

theorem fadeBrightness_inv (step : Int) (s : SDLFade.star_t) (hs : 1 ≤ step)
    (hinv : SDLFade.brightnessInv s) :
    SDLFade.brightnessInv (SDLFade.R_UpdateStarBrightness step s) := by
  obtain ⟨h0, h1, ht⟩ := hinv
  unfold SDLFade.brightnessInv SDLFade.R_UpdateStarBrightness
  dsimp only
  split_ifs <;> refine ⟨?_, ?_, ?_⟩ <;> dsimp only <;> omega

theorem fadeOne_inv (cfg : SDLFade.config) (maxx maxy : Int) (s : SDLFade.star_t)
    (seed : Nat) (hs : 1 ≤ cfg.BRIGHTNESS_STEP) (hinv : SDLFade.brightnessInv s) :
    SDLFade.brightnessInv (SDLFade.updateOne cfg maxx maxy s seed).1 := by
  have h := fadeBrightness_inv cfg.BRIGHTNESS_STEP s hs hinv
  unfold SDLFade.updateOne
  dsimp only
  split_ifs with hz
  · exact ⟨by norm_num, by norm_num, rfl⟩
  · exact h

theorem updateLoop_inv (cfg : SDLFade.config) (maxx maxy : Int)
    (hs : 1 ≤ cfg.BRIGHTNESS_STEP) :
    ∀ (count : Nat) (arr : List SDLFade.star_t) (seed : Nat),
      (∀ s ∈ arr, SDLFade.brightnessInv s) →
      ∀ s ∈ (SDLFade.updateLoop cfg maxx maxy count arr seed).1, SDLFade.brightnessInv s := by
  intro count
  induction count with
  | zero =>
    intro arr seed h
    simpa [SDLFade.updateLoop] using h
  | succ n ih =>
    intro arr seed h
    cases arr with
    | nil =>
      intro s hs'
      simp [SDLFade.updateLoop] at hs'
    | cons a t =>
      intro s hs'
      simp only [SDLFade.updateLoop] at hs'
      rcases List.mem_cons.mp hs' with h1 | h1
      · subst h1
        exact fadeOne_inv cfg maxx maxy a seed hs (h a (List.mem_cons_self a t))
      · exact ih t _ (fun u hu => h u (List.mem_cons_of_mem a hu)) s h1

theorem R_UpdateStars_inv (cfg : SDLFade.config) (count : Nat) (maxx maxy : Int)
    (arr : List SDLFade.star_t) (seed : Nat) (hs : 1 ≤ cfg.BRIGHTNESS_STEP)
    (h : ∀ s ∈ arr, SDLFade.brightnessInv s) :
    ∀ s ∈ (SDLFade.R_UpdateStars cfg count maxx maxy arr seed).1, SDLFade.brightnessInv s := by
  unfold SDLFade.R_UpdateStars
  split_ifs with hb
  · exact h
  · exact updateLoop_inv cfg maxx maxy hs count arr seed h

theorem updIter_inv (cfg : SDLFade.config) (count : Nat) (maxx maxy : Int)
    (hs : 1 ≤ cfg.BRIGHTNESS_STEP) :
    ∀ (n : Nat) (arr : List SDLFade.star_t) (seed : Nat),
      (∀ s ∈ arr, SDLFade.brightnessInv s) →
      ∀ s ∈ (SDLFade.updIter cfg count maxx maxy n (arr, seed)).1, SDLFade.brightnessInv s := by
  intro n
  induction n with
  | zero =>
    intro arr seed h
    simpa [SDLFade.updIter] using h
  | succ m ih =>
    intro arr seed h
    simp only [SDLFade.updIter]
    exact R_UpdateStars_inv cfg count maxx maxy _ _ hs (ih arr seed h)

theorem initOne_inv (cfg : SDLFade.config) (maxx maxy : Int) (seed : Nat) :
    SDLFade.brightnessInv (SDLFade.initOne cfg maxx maxy seed).1 := by
  unfold SDLFade.brightnessInv SDLFade.initOne
  refine ⟨?_, ?_, rfl⟩ <;> dsimp only <;> omega

theorem initLoop_inv (cfg : SDLFade.config) (maxx maxy : Int) :
    ∀ (count : Nat) (arr : List SDLFade.star_t) (seed : Nat),
      (∀ s ∈ arr, SDLFade.brightnessInv s) →
      ∀ s ∈ (SDLFade.initLoop cfg maxx maxy count arr seed).1, SDLFade.brightnessInv s := by
  intro count
  induction count with
  | zero =>
    intro arr seed h
    simpa [SDLFade.initLoop] using h
  | succ n ih =>
    intro arr seed h
    cases arr with
    | nil =>
      intro s hs'
      simp [SDLFade.initLoop] at hs'
    | cons a t =>
      intro s hs'
      simp only [SDLFade.initLoop] at hs'
      rcases List.mem_cons.mp hs' with h1 | h1
      · subst h1
        exact initOne_inv cfg maxx maxy seed
      · exact ih t _ (fun u hu => h u (List.mem_cons_of_mem a hu)) s h1

theorem driftOne_brightness (cfgD : SDLDrift.config) (maxx maxy : Int)
    (sD : SDLDrift.star_t) (seedD : Nat) (hd : 1 ≤ cfgD.BRIGHTNESS_STEP)
    (h0 : 0 ≤ sD.brightness) (h1 : sD.brightness ≤ 255) :
    0 ≤ (SDLDrift.updateOne cfgD maxx maxy sD seedD).1.brightness ∧
    (SDLDrift.updateOne cfgD maxx maxy sD seedD).1.brightness ≤ 255 := by
  unfold SDLDrift.updateOne SDLDrift.moveFade
  dsimp only
  split_ifs <;> refine ⟨?_, ?_⟩ <;> dsimp only <;> omega

/-- C3: brightness stays in [0, 255]: the fade-variant initializer establishes
the invariant, any number of whole-pool per-tick updates preserves it (for
every star index and step count), and the drift-variant per-star update
preserves it as well, for every configured BRIGHTNESS_STEP in [1, 255]. -/
theorem C3_theorem (cfg : SDLFade.config) (cfgD : SDLDrift.config)
    (hs1 : 1 ≤ cfg.BRIGHTNESS_STEP) (hs2 : cfg.BRIGHTNESS_STEP ≤ 255)
    (hd1 : 1 ≤ cfgD.BRIGHTNESS_STEP) (hd2 : cfgD.BRIGHTNESS_STEP ≤ 255)
    (count : Nat) (maxx maxy : Int) (arr : List SDLFade.star_t) (seed : Nat)
    (hinv : ∀ s ∈ arr, SDLFade.brightnessInv s) :
    (∀ s ∈ (SDLFade.R_InitStars cfg count maxx maxy arr seed).1,
        0 ≤ s.brightness ∧ s.brightness ≤ 255) ∧
    (∀ (n : Nat), ∀ s ∈ (SDLFade.updIter cfg count maxx maxy n (arr, seed)).1,
        0 ≤ s.brightness ∧ s.brightness ≤ 255) ∧
    (∀ (sD : SDLDrift.star_t) (seedD : Nat),
        0 ≤ sD.brightness → sD.brightness ≤ 255 →
        0 ≤ (SDLDrift.updateOne cfgD maxx maxy sD seedD).1.brightness ∧
        (SDLDrift.updateOne cfgD maxx maxy sD seedD).1.brightness ≤ 255) := by
  refine ⟨?_, ?_, ?_⟩
  · intro s hmem
    have h : SDLFade.brightnessInv s := by
      unfold SDLFade.R_InitStars at hmem
      split_ifs at hmem with hb
      · exact hinv s hmem
      · exact initLoop_inv cfg maxx maxy count arr seed hinv s hmem
    exact ⟨h.1, h.2.1⟩
  · intro n s hmem
    have h := updIter_inv cfg count maxx maxy hs1 n arr seed hinv s hmem
    exact ⟨h.1, h.2.1⟩
  · intro sD seedD h0 h1
    exact driftOne_brightness cfgD maxx maxy sD seedD hd1 h0 h1

/-- C3 witness: the invariant evaluated on a concrete one-star pool over three
ticks through C3_theorem. -/
theorem C3_witness :
    ((1 : Int) ≤ 15 ∧ (15 : Int) ≤ 255 ∧
      (∀ s ∈ [SDLFade.star0], SDLFade.brightnessInv s)) ∧
    (∀ s ∈ (SDLFade.updIter ⟨0, 1, 50, 15, 1, 3⟩ 1 100 100 3
        ([SDLFade.star0], 1)).1, 0 ≤ s.brightness ∧ s.brightness ≤ 255) :=
  ⟨⟨by decide, by decide, by
      intro s hmem
      rw [List.mem_singleton] at hmem
      subst hmem
      exact ⟨by decide, by decide, rfl⟩⟩,
   (C3_theorem ⟨0, 1, 50, 15, 1, 3⟩ ⟨0, 1, 50, 15, 1, 3, -3, 0⟩ (by decide) (by decide)
     (by decide) (by decide) 1 100 100 [SDLFade.star0] 1 (by
      intro s hmem
      rw [List.mem_singleton] at hmem
      subst hmem
      exact ⟨by decide, by decide, rfl⟩)).2.1 3⟩

theorem initOne_spec (cfg : SDLFade.config) (maxx maxy : Int) (seed : Nat)
    (hx : 0 < maxx) (hy : 0 < maxy) :
    0 ≤ (SDLFade.initOne cfg maxx maxy seed).1.x ∧
    (SDLFade.initOne cfg maxx maxy seed).1.x < maxx ∧
    0 ≤ (SDLFade.initOne cfg maxx maxy seed).1.y ∧
    (SDLFade.initOne cfg maxx maxy seed).1.y < maxy ∧
    0 ≤ (SDLFade.initOne cfg maxx maxy seed).1.brightness ∧
    (SDLFade.initOne cfg maxx maxy seed).1.brightness ≤ 255 := by
  unfold SDLFade.initOne
  refine ⟨?_, ?_, ?_, ?_, ?_, ?_⟩ <;> dsimp only
  · exact castmod_nonneg _ _ hx
  · exact castmod_lt _ _ hx
  · exact castmod_nonneg _ _ hy
  · exact castmod_lt _ _ hy
  · omega
  · omega

theorem initLoop_spec (cfg : SDLFade.config) (maxx maxy : Int)
    (hx : 0 < maxx) (hy : 0 < maxy) :
    ∀ (count : Nat) (arr : List SDLFade.star_t) (seed : Nat),
      ((SDLFade.initLoop cfg maxx maxy count arr seed).1.length = arr.length) ∧
      (∀ i, i < count → i < arr.length →
        0 ≤ ((SDLFade.initLoop cfg maxx maxy count arr seed).1.getD i SDLFade.star0).x ∧
        ((SDLFade.initLoop cfg maxx maxy count arr seed).1.getD i SDLFade.star0).x < maxx ∧
        0 ≤ ((SDLFade.initLoop cfg maxx maxy count arr seed).1.getD i SDLFade.star0).y ∧
        ((SDLFade.initLoop cfg maxx maxy count arr seed).1.getD i SDLFade.star0).y < maxy ∧
        0 ≤ ((SDLFade.initLoop cfg maxx maxy count arr seed).1.getD i SDLFade.star0).brightness ∧
        ((SDLFade.initLoop cfg maxx maxy count arr seed).1.getD i SDLFade.star0).brightness ≤ 255) ∧
      (∀ i, count ≤ i →
        (SDLFade.initLoop cfg maxx maxy count arr seed).1.getD i SDLFade.star0
          = arr.getD i SDLFade.star0) := by
  intro count
  induction count with
  | zero =>
    intro arr seed
    exact ⟨by simp [SDLFade.initLoop], fun i hi => absurd hi (Nat.not_lt_zero i),
      fun i _ => rfl⟩
  | succ n ih =>
    intro arr seed
    cases arr with
    | nil =>
      refine ⟨rfl, fun i hi hlen => absurd hlen (Nat.not_lt_zero i), fun i _ => ?_⟩
      simp [SDLFade.initLoop]
    | cons a t =>
      have IH := ih t (SDLFade.initOne cfg maxx maxy seed).2
      refine ⟨?_, ?_, ?_⟩
      · simp only [SDLFade.initLoop, List.length_cons]
        rw [IH.1]
      · intro i hi hlen
        cases i with
        | zero =>
          have h := initOne_spec cfg maxx maxy seed hx hy
          simpa [SDLFade.initLoop] using h
        | succ j =>
          have h := IH.2.1 j (by omega) (by simpa using Nat.lt_of_succ_lt_succ hlen)
          simpa [SDLFade.initLoop] using h
      · intro i hi
        cases i with
        | zero => omega
        | succ j =>
          have h := IH.2.2 j (by omega)
          simpa [SDLFade.initLoop] using h

theorem driftInitOne_spec (cfg : SDLDrift.config) (maxx maxy : Int) (seed : Nat)
    (hx : 0 < maxx) (hy : 0 < maxy) :
    0 ≤ (SDLDrift.initOne cfg maxx maxy seed).1.x ∧
    (SDLDrift.initOne cfg maxx maxy seed).1.x < (maxx : ℚ) ∧
    0 ≤ (SDLDrift.initOne cfg maxx maxy seed).1.y ∧
    (SDLDrift.initOne cfg maxx maxy seed).1.y < (maxy : ℚ) ∧
    0 ≤ (SDLDrift.initOne cfg maxx maxy seed).1.brightness ∧
    (SDLDrift.initOne cfg maxx maxy seed).1.brightness ≤ 255 := by
  unfold SDLDrift.initOne
  refine ⟨?_, ?_, ?_, ?_, ?_, ?_⟩ <;> dsimp only
  · exact_mod_cast castmod_nonneg _ _ hx
  · exact_mod_cast castmod_lt _ _ hx
  · exact_mod_cast castmod_nonneg _ _ hy
  · exact_mod_cast castmod_lt _ _ hy
  · omega
  · omega

theorem driftInitLoop_spec (cfg : SDLDrift.config) (maxx maxy : Int)
    (hx : 0 < maxx) (hy : 0 < maxy) :
    ∀ (count : Nat) (arr : List SDLDrift.star_t) (seed : Nat),
      ((SDLDrift.initLoop cfg maxx maxy count arr seed).1.length = arr.length) ∧
      (∀ i, i < count → i < arr.length →
        0 ≤ ((SDLDrift.initLoop cfg maxx maxy count arr seed).1.getD i SDLDrift.star0).x ∧
        ((SDLDrift.initLoop cfg maxx maxy count arr seed).1.getD i SDLDrift.star0).x < (maxx : ℚ) ∧
        0 ≤ ((SDLDrift.initLoop cfg maxx maxy count arr seed).1.getD i SDLDrift.star0).y ∧
        ((SDLDrift.initLoop cfg maxx maxy count arr seed).1.getD i SDLDrift.star0).y < (maxy : ℚ) ∧
        0 ≤ ((SDLDrift.initLoop cfg maxx maxy count arr seed).1.getD i SDLDrift.star0).brightness ∧
        ((SDLDrift.initLoop cfg maxx maxy count arr seed).1.getD i SDLDrift.star0).brightness ≤ 255) ∧
      (∀ i, count ≤ i →
        (SDLDrift.initLoop cfg maxx maxy count arr seed).1.getD i SDLDrift.star0
          = arr.getD i SDLDrift.star0) := by
  intro count
  induction count with
  | zero =>
    intro arr seed
    exact ⟨by simp [SDLDrift.initLoop], fun i hi => absurd hi (Nat.not_lt_zero i),
      fun i _ => rfl⟩
  | succ n ih =>
    intro arr seed
    cases arr with
    | nil =>
      refine ⟨rfl, fun i hi hlen => absurd hlen (Nat.not_lt_zero i), fun i _ => ?_⟩
      simp [SDLDrift.initLoop]
    | cons a t =>
      have IH := ih t (SDLDrift.initOne cfg maxx maxy seed).2
      refine ⟨?_, ?_, ?_⟩
      · simp only [SDLDrift.initLoop, List.length_cons]
        rw [IH.1]
      · intro i hi hlen
        cases i with
        | zero =>
          have h := driftInitOne_spec cfg maxx maxy seed hx hy
          simpa [SDLDrift.initLoop] using h
        | succ j =>
          have h := IH.2.1 j (by omega) (by simpa using Nat.lt_of_succ_lt_succ hlen)
          simpa [SDLDrift.initLoop] using h
      · intro i hi
        cases i with
        | zero => omega
        | succ j =>
          have h := IH.2.2 j (by omega)
          simpa [SDLDrift.initLoop] using h

/-- C4: with positive bounds and count at most MAXSTARS (and within the pool),
initialization yields exactly `count` initialized stars: the pool length is
unchanged, every star below `count` has x in [0, maxx), y in [0, maxy) and
brightness in [0, 255], and every star from `count` on is untouched (fade and
drift variants). -/
theorem C4_theorem (cfg : SDLFade.config) (cfgD : SDLDrift.config) (count : Nat)
    (maxx maxy : Int) (arr : List SDLFade.star_t) (arrD : List SDLDrift.star_t)
    (seed seedD : Nat) (hx : 0 < maxx) (hy : 0 < maxy)
    (hcap : count ≤ MAXSTARS) (hlen : count ≤ arr.length) (hlenD : count ≤ arrD.length) :
    ((SDLFade.R_InitStars cfg count maxx maxy arr seed).1.length = arr.length) ∧
    (∀ i, i < count →
      0 ≤ ((SDLFade.R_InitStars cfg count maxx maxy arr seed).1.getD i SDLFade.star0).x ∧
      ((SDLFade.R_InitStars cfg count maxx maxy arr seed).1.getD i SDLFade.star0).x < maxx ∧
      0 ≤ ((SDLFade.R_InitStars cfg count maxx maxy arr seed).1.getD i SDLFade.star0).y ∧
      ((SDLFade.R_InitStars cfg count maxx maxy arr seed).1.getD i SDLFade.star0).y < maxy ∧
      0 ≤ ((SDLFade.R_InitStars cfg count maxx maxy arr seed).1.getD i SDLFade.star0).brightness ∧
      ((SDLFade.R_InitStars cfg count maxx maxy arr seed).1.getD i SDLFade.star0).brightness ≤ 255) ∧
    (∀ i, count ≤ i →
      (SDLFade.R_InitStars cfg count maxx maxy arr seed).1.getD i SDLFade.star0
        = arr.getD i SDLFade.star0) ∧
    ((SDLDrift.R_InitStars cfgD count maxx maxy arrD seedD).1.length = arrD.length) ∧
    (∀ i, i < count →
      0 ≤ ((SDLDrift.R_InitStars cfgD count maxx maxy arrD seedD).1.getD i SDLDrift.star0).x ∧
      ((SDLDrift.R_InitStars cfgD count maxx maxy arrD seedD).1.getD i SDLDrift.star0).x < (maxx : ℚ) ∧
      0 ≤ ((SDLDrift.R_InitStars cfgD count maxx maxy arrD seedD).1.getD i SDLDrift.star0).y ∧
      ((SDLDrift.R_InitStars cfgD count maxx maxy arrD seedD).1.getD i SDLDrift.star0).y < (maxy : ℚ) ∧
      0 ≤ ((SDLDrift.R_InitStars cfgD count maxx maxy arrD seedD).1.getD i SDLDrift.star0).brightness ∧
      ((SDLDrift.R_InitStars cfgD count maxx maxy arrD seedD).1.getD i SDLDrift.star0).brightness ≤ 255) ∧
    (∀ i, count ≤ i →
      (SDLDrift.R_InitStars cfgD count maxx maxy arrD seedD).1.getD i SDLDrift.star0
        = arrD.getD i SDLDrift.star0) := by
  have hguard : ¬(maxx ≤ 0 ∨ maxy ≤ 0) := by omega
  have hF := initLoop_spec cfg maxx maxy hx hy count arr seed
  have hD := driftInitLoop_spec cfgD maxx maxy hx hy count arrD seedD
  unfold SDLFade.R_InitStars SDLDrift.R_InitStars
  rw [if_neg hguard, if_neg hguard]
  exact ⟨hF.1, fun i hi => hF.2.1 i hi (by omega), hF.2.2,
    hD.1, fun i hi => hD.2.1 i hi (by omega), hD.2.2⟩

/-- C4 witness: initialization of two stars of a three-star pool in a 4 by 3
window through C4_theorem. -/
theorem C4_witness :
    ((0 : Int) < 4 ∧ (0 : Int) < 3 ∧ 2 ≤ MAXSTARS ∧
      2 ≤ [SDLFade.star0, SDLFade.star0, SDLFade.star0].length) ∧
    ((SDLFade.R_InitStars ⟨0, 2, 50, 15, 1, 3⟩ 2 4 3
        [SDLFade.star0, SDLFade.star0, SDLFade.star0] 1).1.length = 3) ∧
    (0 ≤ ((SDLFade.R_InitStars ⟨0, 2, 50, 15, 1, 3⟩ 2 4 3
        [SDLFade.star0, SDLFade.star0, SDLFade.star0] 1).1.getD 0 SDLFade.star0).x) ∧
    ((SDLFade.R_InitStars ⟨0, 2, 50, 15, 1, 3⟩ 2 4 3
        [SDLFade.star0, SDLFade.star0, SDLFade.star0] 1).1.getD 2 SDLFade.star0
      = SDLFade.star0) := by
  have h := C4_theorem ⟨0, 2, 50, 15, 1, 3⟩ ⟨0, 2, 50, 15, 1, 3, -3, 0⟩ 2 4 3
    [SDLFade.star0, SDLFade.star0, SDLFade.star0]
    [SDLDrift.star0, SDLDrift.star0, SDLDrift.star0] 1 1
    (by decide) (by decide) (by decide) (by decide) (by decide)
  exact ⟨⟨by decide, by decide, by decide, by decide⟩, h.1, (h.2.1 0 (by decide)).1,
    (h.2.2.1 2 (by decide)).trans rfl⟩

/-- C1 counterexample: with brightness 1 and step 1 (so ceil(b/s) = 1) the
star's observable brightness is never 0: it is 1 after 0 steps and already 255
after step 1, because the respawn fires inside the same step in which the
decrement reaches 0 (the position already changed in step 1, not step 2). -/
theorem C1_counterexample :
    (SDLFade.stepIter ⟨0, 100, 15, 1, 1, 3⟩ 100 100 0
      (⟨5, 5, 1, 0, 10, 20, 30⟩, 1)).1.brightness ≠ 0 ∧
    (SDLFade.stepIter ⟨0, 100, 15, 1, 1, 3⟩ 100 100 1
      (⟨5, 5, 1, 0, 10, 20, 30⟩, 1)).1.brightness ≠ 0 ∧
    (SDLFade.stepIter ⟨0, 100, 15, 1, 1, 3⟩ 100 100 1
      (⟨5, 5, 1, 0, 10, 20, 30⟩, 1)).1.brightness = 255 ∧
    (SDLFade.stepIter ⟨0, 100, 15, 1, 1, 3⟩ 100 100 1
      (⟨5, 5, 1, 0, 10, 20, 30⟩, 1)).1.x = 20 := by
  exact ⟨by decide, by decide, by decide, by decide⟩

set_option maxHeartbeats 1000000 in
/-- C1 (amended): for brightness b and step s in [1, 255], the per-tick step
decrements brightness by exactly s per tick while it stays positive, the
decrement reaches 0 during the ceil(b/s)-th step, and the respawn fires within
that same step: after ceil(b/s) steps the star is already respawned
(brightness 255, position re-randomized), and the observable post-step
brightness is never 0. -/
theorem C1_theorem (cfg : SDLFade.config) (maxx maxy : Int) (x0 y0 r0 g0 b0 : Int)
    (seed : Nat) (bb ss : Nat) (hx : 0 < maxx) (hy : 0 < maxy)
    (hb1 : 1 ≤ bb) (hb2 : bb ≤ 255) (hs1 : 1 ≤ ss) (hs2 : ss ≤ 255)
    (hcfg : cfg.BRIGHTNESS_STEP = (ss : Int)) :
    (∀ j, j < (bb + ss - 1) / ss →
      SDLFade.stepIter cfg maxx maxy j (⟨x0, y0, (bb : Int), 0, r0, g0, b0⟩, seed)
        = (⟨x0, y0, (bb : Int) - (j : Int) * (ss : Int), 0, r0, g0, b0⟩, seed)) ∧
    (∀ j, j ≤ (bb + ss - 1) / ss →
      (SDLFade.stepIter cfg maxx maxy j
        (⟨x0, y0, (bb : Int), 0, r0, g0, b0⟩, seed)).1.brightness ≠ 0) ∧
    ((SDLFade.stepIter cfg maxx maxy ((bb + ss - 1) / ss)
        (⟨x0, y0, (bb : Int), 0, r0, g0, b0⟩, seed)).1.brightness = 255) ∧
    ((SDLFade.stepIter cfg maxx maxy ((bb + ss - 1) / ss)
        (⟨x0, y0, (bb : Int), 0, r0, g0, b0⟩, seed)).1.x
      = ((M_RealRandom seed).1 : Int) % maxx) := by
  set k := (bb + ss - 1) / ss with hk
  have hdm := Nat.div_add_mod (bb + ss - 1) ss
  have hrlt : (bb + ss - 1) % ss < ss := Nat.mod_lt _ (by omega)
  rw [← hk] at hdm
  have hbb_le : bb ≤ ss * k := by omega
  have hkpos : 1 ≤ k := by
    rw [hk]
    rw [Nat.le_div_iff_mul_le (by omega)]
    omega
  have hksub : (k - 1) * ss = ss * k - ss := by
    rw [Nat.sub_mul, one_mul, Nat.mul_comm]
  have hklt : (k - 1) * ss < bb := by omega
  -- per-step decrement while strictly before step k
  have main : ∀ j, j < k →
      SDLFade.stepIter cfg maxx maxy j (⟨x0, y0, (bb : Int), 0, r0, g0, b0⟩, seed)
        = (⟨x0, y0, (bb : Int) - (j : Int) * (ss : Int), 0, r0, g0, b0⟩, seed) := by
    intro j
    induction j with
    | zero =>
      intro hj
      simp only [SDLFade.stepIter, Nat.cast_zero, zero_mul, sub_zero]
    | succ i ih =>
      intro hj
      have hi : i < k := by omega
      have hstepN : (i + 1) * ss < bb :=
        lt_of_le_of_lt (mul_le_mul_right' (by omega : i + 1 ≤ k - 1) ss) hklt
      have hstepI : ((i : Int) + 1) * (ss : Int) < (bb : Int) := by exact_mod_cast hstepN
      rw [add_mul, one_mul] at hstepI
      simp only [SDLFade.stepIter]
      rw [ih hi]
      unfold SDLFade.updateOne SDLFade.R_UpdateStarBrightness
      rw [hcfg]
      dsimp only
      rw [if_pos (by linarith : (bb : Int) - (i : Int) * (ss : Int) > 0)]
      rw [if_neg (by linarith : ¬((bb : Int) - (i : Int) * (ss : Int) - (ss : Int) < 0))]
      dsimp only
      rw [if_neg (by intro hcontra; linarith :
        ¬((bb : Int) - (i : Int) * (ss : Int) - (ss : Int) = 0))]
      have heq : (bb : Int) - (i : Int) * (ss : Int) - (ss : Int)
          = (bb : Int) - ((i + 1 : Nat) : Int) * (ss : Int) := by
        push_cast
        ring
      rw [heq]
  -- the step that reaches 0 respawns within the same step
  have hfin :
      (SDLFade.stepIter cfg maxx maxy k
        (⟨x0, y0, (bb : Int), 0, r0, g0, b0⟩, seed)).1.brightness = 255 ∧
      (SDLFade.stepIter cfg maxx maxy k
        (⟨x0, y0, (bb : Int), 0, r0, g0, b0⟩, seed)).1.x
        = ((M_RealRandom seed).1 : Int) % maxx := by
    obtain ⟨kp, hkp⟩ : ∃ kp, k = kp + 1 := ⟨k - 1, by omega⟩
    have hppos : kp * ss < bb := by
      have : kp = k - 1 := by omega
      rw [this]
      exact hklt
    have hple : bb ≤ kp * ss + ss := by
      have : ss * k = ss * kp + ss := by rw [hkp, Nat.mul_succ]
      rw [this, Nat.mul_comm ss kp] at hbb_le
      exact hbb_le
    have hpposI : (kp : Int) * (ss : Int) < (bb : Int) := by exact_mod_cast hppos
    have hpleI : (bb : Int) ≤ (kp : Int) * (ss : Int) + (ss : Int) := by exact_mod_cast hple
    rw [hkp]
    simp only [SDLFade.stepIter]
    rw [main kp (by omega)]
    unfold SDLFade.updateOne SDLFade.R_UpdateStarBrightness
    rw [hcfg]
    dsimp only
    rw [if_pos (by linarith : (bb : Int) - (kp : Int) * (ss : Int) > 0)]
    by_cases hz : (bb : Int) - (kp : Int) * (ss : Int) - (ss : Int) < 0
    · rw [if_pos hz]
      dsimp only
      rw [if_pos rfl]
      exact ⟨rfl, rfl⟩
    · rw [if_neg hz]
      dsimp only
      rw [if_pos (by linarith : (bb : Int) - (kp : Int) * (ss : Int) - (ss : Int) = 0)]
      exact ⟨rfl, rfl⟩
  refine ⟨main, ?_, hfin.1, hfin.2⟩
  intro j hj
  rcases Nat.lt_or_ge j k with hlt | hge
  · rw [main j hlt]
    have hjN : j * ss < bb := by
      rcases Nat.eq_zero_or_pos j with h0 | hp
      · subst h0
        simpa using hb1
      · exact lt_of_le_of_lt (mul_le_mul_right' (by omega : j ≤ k - 1) ss) hklt
    have hjI : (j : Int) * (ss : Int) < (bb : Int) := by exact_mod_cast hjN
    dsimp only
    intro hcontra
    linarith
  · have hjk : j = k := by omega
    rw [hjk, hfin.1]
    norm_num

set_option maxRecDepth 4000 in
/-- C1 witness: a full fade cycle with brightness 255 and step 15
(ceil(255/15) = 17 ticks) through C1_theorem. -/
theorem C1_witness :
    ((0 : Int) < 100 ∧ (0 : Int) < 100 ∧ 1 ≤ (255 : Nat) ∧ (255 : Nat) ≤ 255 ∧
      1 ≤ (15 : Nat) ∧ (15 : Nat) ≤ 255 ∧
      ((⟨0, 100, 15, 15, 1, 3⟩ : SDLFade.config).BRIGHTNESS_STEP = ((15 : Nat) : Int))) ∧
    ((SDLFade.stepIter ⟨0, 100, 15, 15, 1, 3⟩ 100 100 ((255 + 15 - 1) / 15)
        (⟨7, 8, 255, 0, 1, 2, 3⟩, 1)).1.brightness = 255) ∧
    ((SDLFade.stepIter ⟨0, 100, 15, 15, 1, 3⟩ 100 100 5
        (⟨7, 8, 255, 0, 1, 2, 3⟩, 1)).1.brightness ≠ 0) := by
  have h := C1_theorem ⟨0, 100, 15, 15, 1, 3⟩ 100 100 7 8 1 2 3 1 255 15
    (by decide) (by decide) (by decide) (by decide) (by decide) (by decide) (by decide)
  exact ⟨⟨by decide, by decide, by decide, by decide, by decide, by decide, by decide⟩,
    h.2.2.1, h.2.1 5 (by decide)⟩

/-- C2 counterexample: in the drift variant with STAR_SPEED = -10, a star at
x = 0 with speed 1 moves to -5/3, leaves on the left and is respawned during
that step at x = maxx = 10 — on the right boundary, not within [0, 10). -/
theorem C2_counterexample :
    SDLDrift.respawnCond ⟨0, 100, 15, 1, 1, 3, -10, 0⟩ 10
      (SDLDrift.moveFade ⟨0, 100, 15, 1, 1, 3, -10, 0⟩ ⟨0, 0, 1, 200, 1, 2, 3⟩) ∧
    (SDLDrift.updateOne ⟨0, 100, 15, 1, 1, 3, -10, 0⟩ 10 10
      (⟨0, 0, 1, 200, 1, 2, 3⟩ : SDLDrift.star_t) 1).1.x = 10 ∧
    ¬ ((SDLDrift.updateOne ⟨0, 100, 15, 1, 1, 3, -10, 0⟩ 10 10
      (⟨0, 0, 1, 200, 1, 2, 3⟩ : SDLDrift.star_t) 1).1.x < (10 : ℚ)) := by
  refine ⟨?_, ?_, ?_⟩
  · simp only [SDLDrift.respawnCond, SDLDrift.moveFade]
    norm_num
  · simp only [SDLDrift.updateOne, SDLDrift.moveFade, SDLDrift.respawnCond]
    norm_num
  · simp only [SDLDrift.updateOne, SDLDrift.moveFade, SDLDrift.respawnCond]
    norm_num

/-- C2 (amended): a star respawned during a step with positive bounds ends the
step with fresh brightness (255 in the fade variant, in [128, 255] in the
drift variant) and with y in [0, maxy); its x is in [0, maxx) in the fade
variant, while in the drift variant x lies in the closed interval [0, maxx]:
the left-exit wrap lands exactly on the right boundary maxx. -/
theorem C2_theorem (cfg : SDLFade.config) (cfgD : SDLDrift.config) (maxx maxy : Int)
    (s : SDLFade.star_t) (sD : SDLDrift.star_t) (seed seedD : Nat)
    (hx : 0 < maxx) (hy : 0 < maxy) :
    ((SDLFade.R_UpdateStarBrightness cfg.BRIGHTNESS_STEP s).brightness = 0 →
      (SDLFade.updateOne cfg maxx maxy s seed).1.brightness = 255 ∧
      0 ≤ (SDLFade.updateOne cfg maxx maxy s seed).1.x ∧
      (SDLFade.updateOne cfg maxx maxy s seed).1.x < maxx ∧
      0 ≤ (SDLFade.updateOne cfg maxx maxy s seed).1.y ∧
      (SDLFade.updateOne cfg maxx maxy s seed).1.y < maxy) ∧
    (SDLDrift.respawnCond cfgD maxx (SDLDrift.moveFade cfgD sD) →
      128 ≤ (SDLDrift.updateOne cfgD maxx maxy sD seedD).1.brightness ∧
      (SDLDrift.updateOne cfgD maxx maxy sD seedD).1.brightness ≤ 255 ∧
      0 ≤ (SDLDrift.updateOne cfgD maxx maxy sD seedD).1.x ∧
      (SDLDrift.updateOne cfgD maxx maxy sD seedD).1.x ≤ (maxx : ℚ) ∧
      0 ≤ (SDLDrift.updateOne cfgD maxx maxy sD seedD).1.y ∧
      (SDLDrift.updateOne cfgD maxx maxy sD seedD).1.y < (maxy : ℚ)) := by
  constructor
  · intro h
    unfold SDLFade.updateOne
    dsimp only
    rw [if_pos h]
    exact ⟨rfl, castmod_nonneg _ _ hx, castmod_lt _ _ hx,
      castmod_nonneg _ _ hy, castmod_lt _ _ hy⟩
  · intro h
    unfold SDLDrift.updateOne
    dsimp only
    rw [if_pos h]
    split_ifs with h1 h2 <;>
      refine ⟨by dsimp only; omega, by dsimp only; omega, ?_, ?_, ?_, ?_⟩ <;> dsimp only
    · norm_num
    · exact_mod_cast hx.le
    · exact_mod_cast castmod_nonneg _ _ hy
    · exact_mod_cast castmod_lt _ _ hy
    · exact_mod_cast hx.le
    · exact le_refl _
    · exact_mod_cast castmod_nonneg _ _ hy
    · exact_mod_cast castmod_lt _ _ hy
    · exact_mod_cast castmod_nonneg _ _ hx
    · exact_mod_cast (castmod_lt _ _ hx).le
    · exact_mod_cast castmod_nonneg _ _ hy
    · exact_mod_cast castmod_lt _ _ hy

/-- C2 witness: a fade-variant respawn (step 255 kills brightness 200) and a
drift-variant respawn (brightness 1, step 1, speed 0) through C2_theorem. -/
theorem C2_witness :
    ((SDLFade.R_UpdateStarBrightness
        (⟨0, 100, 15, 255, 1, 3⟩ : SDLFade.config).BRIGHTNESS_STEP
        ⟨5, 5, 200, 0, 1, 2, 3⟩).brightness = 0 ∧
      (SDLFade.updateOne ⟨0, 100, 15, 255, 1, 3⟩ 10 10 ⟨5, 5, 200, 0, 1, 2, 3⟩ 1).1.brightness
        = 255 ∧
      (SDLFade.updateOne ⟨0, 100, 15, 255, 1, 3⟩ 10 10 ⟨5, 5, 200, 0, 1, 2, 3⟩ 1).1.x < 10) ∧
    (SDLDrift.respawnCond ⟨0, 100, 15, 1, 1, 3, 0, 0⟩ 10
        (SDLDrift.moveFade ⟨0, 100, 15, 1, 1, 3, 0, 0⟩ ⟨4, 4, 1, 1, 1, 2, 3⟩) ∧
      128 ≤ (SDLDrift.updateOne ⟨0, 100, 15, 1, 1, 3, 0, 0⟩ 10 10
        (⟨4, 4, 1, 1, 1, 2, 3⟩ : SDLDrift.star_t) 1).1.brightness ∧
      (SDLDrift.updateOne ⟨0, 100, 15, 1, 1, 3, 0, 0⟩ 10 10
        (⟨4, 4, 1, 1, 1, 2, 3⟩ : SDLDrift.star_t) 1).1.x ≤ (10 : ℚ)) := by
  have hF := (C2_theorem ⟨0, 100, 15, 255, 1, 3⟩ ⟨0, 100, 15, 1, 1, 3, 0, 0⟩ 10 10
    ⟨5, 5, 200, 0, 1, 2, 3⟩ ⟨4, 4, 1, 1, 1, 2, 3⟩ 1 1 (by decide) (by decide)).1
    (by decide)
  have hcond : SDLDrift.respawnCond ⟨0, 100, 15, 1, 1, 3, 0, 0⟩ 10
      (SDLDrift.moveFade ⟨0, 100, 15, 1, 1, 3, 0, 0⟩ ⟨4, 4, 1, 1, 1, 2, 3⟩) := by
    simp only [SDLDrift.respawnCond, SDLDrift.moveFade]
    norm_num
  have hD := (C2_theorem ⟨0, 100, 15, 255, 1, 3⟩ ⟨0, 100, 15, 1, 1, 3, 0, 0⟩ 10 10
    ⟨5, 5, 200, 0, 1, 2, 3⟩ ⟨4, 4, 1, 1, 1, 2, 3⟩ 1 1 (by decide) (by decide)).2 hcond
  exact ⟨⟨by decide, hF.1, hF.2.2.1⟩, ⟨hcond, hD.1, hD.2.2.2.1⟩⟩
